import Mathlib

/-!
Shallow embedding of the authentication/session core of the task-manager
repository (Express/Mongoose backend): `backend/models/User.js`, the Session
model, `backend/middleware/auth.js` and `backend/routes/auth.js`.

Conventions of the embedding:
* absolute times are naturals counting milliseconds since the epoch
  (`Date.now()`); JWT `iat` claims are in whole seconds (`getTime()/1000`);
* bcrypt is treated as an external injective one-way hash (`bcryptHash`);
* JWTs are modelled structurally: a token value carries exactly the claims
  the code signs, plus the expiry instant and an issuance nonce; signature
  forgery is out of scope, so `jwt.verify` succeeds exactly on unexpired
  tokens;
* `sha256` over a refresh-token string is modelled by the token's issuance
  nonce (collision freedom of the hash is represented by nonce freshness);
* Mongo documents live in in-memory lists; `updateOne`/`save` are modelled
  by pure record updates written back into the state.
-/

namespace TaskAuth

/-- Configured constants, as defaulted in the source
(`JWT_EXPIRES_IN || "30m"`, `JWT_REFRESH_EXPIRES_IN || "7d"`,
`MAX_LOGIN_ATTEMPTS || 5`, `ACCOUNT_LOCK_TIME || 30*60*1000`). -/
def accessTokenLifetime : Nat := 30 * 60 * 1000

def refreshTokenLifetime : Nat := 7 * 24 * 60 * 60 * 1000

def maxLoginAttempts : Nat := 5

def accountLockTime : Nat := 30 * 60 * 1000

/-- Session expiry when `rememberMe` is set (30 days), from
`createUserSession` in `routes/auth.js`. -/
def rememberMeExpiry : Nat := 30 * 24 * 60 * 60 * 1000

/-- Default session expiry (7 days), from `createUserSession`. -/
def defaultSessionExpiry : Nat := 7 * 24 * 60 * 60 * 1000

/-- Model of bcrypt: an injective one-way hash on passwords. -/
def bcryptHash (p : String) : String := "bcrypt$" ++ p

/-- Device descriptor, from `getDeviceInfo` in `middleware/auth.js` and the
`deviceInfo` subdocument of the Session schema. -/
structure DeviceInfo where
  userAgent : String
  ip : String
  location : String
  deviceFingerprint : Option String
deriving Repr, DecidableEq

/-- Inbound request metadata consumed by `getDeviceInfo`. -/
structure ReqInfo where
  userAgent : String
  ip : String
  country : Option String
deriving Repr, DecidableEq

/-- Embedding of `getDeviceInfo` (`middleware/auth.js`): the fingerprint is
base64 of `userAgent-ip`, modelled by an injective string build. -/
def getDeviceInfo (req : ReqInfo) : DeviceInfo :=
  { userAgent := req.userAgent
    ip := req.ip
    deviceFingerprint := some ("b64$" ++ req.userAgent ++ "-" ++ req.ip)
    location := req.country.getD "Unknown" }

/-- User document, from the schema in `models/User.js`.  The stored
`password` field holds the bcrypt hash. -/
structure UserDoc where
  id : Nat
  username : String
  email : String
  password : String
  firstName : String
  lastName : String
  failedLoginAttempts : Nat
  accountLockedUntil : Option Nat
  lastLoginAt : Option Nat
  passwordChangedAt : Option Nat
  activeSessions : List Nat
  maxConcurrentSessions : Nat
  isEmailVerified : Bool
  isActive : Bool
  twoFactorEnabled : Bool
  emailNotifications : Bool
  createdAt : Nat
deriving Repr, DecidableEq

/-- Virtual `isLocked` (`models/User.js`):
`accountLockedUntil && accountLockedUntil > Date.now()`. -/
def UserDoc.isLocked (u : UserDoc) (now : Nat) : Bool :=
  match u.accountLockedUntil with
  | some t => now < t
  | none => false

/-- Virtual `fullName` (`models/User.js`), with JS string truthiness. -/
def UserDoc.fullName (u : UserDoc) : String :=
  if u.firstName ≠ "" ∧ u.lastName ≠ "" then u.firstName ++ " " ++ u.lastName
  else if u.firstName ≠ "" then u.firstName
  else if u.lastName ≠ "" then u.lastName
  else u.username

/-- Method `comparePassword` (`models/User.js`): bcrypt comparison of the
candidate against the stored hash. -/
def UserDoc.comparePassword (u : UserDoc) (candidate : String) : Bool :=
  bcryptHash candidate == u.password

/-- Method `changedPasswordAfter` (`models/User.js`): when
`passwordChangedAt` is set, return `JWTTimestamp < getTime()/1000` with the
millisecond timestamp truncated to whole seconds. -/
def UserDoc.changedPasswordAfter (u : UserDoc) (jwtTimestamp : Nat) : Bool :=
  match u.passwordChangedAt with
  | some t => jwtTimestamp < t / 1000
  | none => false

/-- Method `incLoginAttempts` (`models/User.js`): if a previous lock has
expired, restart the counter at 1 and clear the lock; otherwise increment
the counter, and set `accountLockedUntil = now + lockTime` when the count
reaches `maxAttempts` while the account is not currently locked. -/
def UserDoc.incLoginAttempts (u : UserDoc) (now : Nat) : UserDoc :=
  match u.accountLockedUntil with
  | some t =>
    if t < now then
      { u with accountLockedUntil := none, failedLoginAttempts := 1 }
    else
      let u1 := { u with failedLoginAttempts := u.failedLoginAttempts + 1 }
      if maxLoginAttempts ≤ u.failedLoginAttempts + 1 ∧ u.isLocked now = false then
        { u1 with accountLockedUntil := some (now + accountLockTime) }
      else u1
  | none =>
    let u1 := { u with failedLoginAttempts := u.failedLoginAttempts + 1 }
    if maxLoginAttempts ≤ u.failedLoginAttempts + 1 ∧ u.isLocked now = false then
      { u1 with accountLockedUntil := some (now + accountLockTime) }
    else u1

/-- Method `resetLoginAttempts` (`models/User.js`): unset both counters
(the schema default 0 applies when the field is absent). -/
def UserDoc.resetLoginAttempts (u : UserDoc) : UserDoc :=
  { u with failedLoginAttempts := 0, accountLockedUntil := none }

/-- Method `addSession` (`models/User.js`): drop a duplicate id, append the
new id, keep only the most recent `maxConcurrentSessions` ids
(`slice(-max)`), and bump `lastLoginAt`. -/
def UserDoc.addSession (u : UserDoc) (sessionId : Nat) (now : Nat) : UserDoc :=
  let filtered := u.activeSessions.filter (fun id => id ≠ sessionId)
  let appended := filtered ++ [sessionId]
  let trimmed :=
    if u.maxConcurrentSessions < appended.length then
      appended.drop (appended.length - u.maxConcurrentSessions)
    else appended
  { u with activeSessions := trimmed, lastLoginAt := some now }

/-- Method `removeSession` (`models/User.js`). -/
def UserDoc.removeSession (u : UserDoc) (sessionId : Nat) : UserDoc :=
  { u with activeSessions := u.activeSessions.filter (fun id => id ≠ sessionId) }

/-- Method `removeAllSessions` (`models/User.js`). -/
def UserDoc.removeAllSessions (u : UserDoc) : UserDoc :=
  { u with activeSessions := [] }

/-- Session document, from the Session schema (`models/Session.js`). -/
structure SessionDoc where
  userId : Nat
  sessionId : Nat
  refreshTokenHash : Nat
  tokenFamily : Nat
  deviceInfo : DeviceInfo
  isActive : Bool
  expiresAt : Nat
  lastAccessedAt : Nat
  loginMethod : String
  riskScore : Nat
  metadata : List (String × String)
  createdAt : Nat
deriving Repr, DecidableEq

/-- Key update in the session metadata map (`this.metadata.set(k, v)`). -/
def metaSet (m : List (String × String)) (k v : String) : List (String × String) :=
  m.filter (fun p => p.1 ≠ k) ++ [(k, v)]

/-- Method `calculateRiskScore` (Session model): age factor (+20 beyond a
week, +10 beyond a day), inactivity factor (+15 beyond a day, +5 beyond six
hours), +10 for a missing/empty device fingerprint, capped at 100. -/
def SessionDoc.calculateRiskScore (s : SessionDoc) (now : Nat) : Nat :=
  let ageScore :=
    if 7 * 24 * 60 * 60 * 1000 < now - s.createdAt then 20
    else if 24 * 60 * 60 * 1000 < now - s.createdAt then 10
    else 0
  let inactivityScore :=
    if 24 * 60 * 60 * 1000 < now - s.lastAccessedAt then 15
    else if 6 * 60 * 60 * 1000 < now - s.lastAccessedAt then 5
    else 0
  let fingerprintScore :=
    match s.deviceInfo.deviceFingerprint with
    | none => 10
    | some f => if f = "" then 10 else 0
  min (ageScore + inactivityScore + fingerprintScore) 100

/-- Method `updateLastAccessed` (Session model), including the pre-save
hook that recomputes the risk score whenever `lastAccessedAt` changed. -/
def SessionDoc.updateLastAccessed (s : SessionDoc) (now : Nat) : SessionDoc :=
  let s1 := { s with lastAccessedAt := now }
  { s1 with riskScore := s1.calculateRiskScore now }

/-- Method `deactivate` (Session model): clear `isActive` and record the
reason and instant in the metadata map.  `lastAccessedAt` is untouched, so
the pre-save hook does not recompute the risk score. -/
def SessionDoc.deactivate (s : SessionDoc) (reason : String) (now : Nat) : SessionDoc :=
  { s with
    isActive := false
    metadata := metaSet (metaSet s.metadata "deactivationReason" reason)
      "deactivatedAt" (toString now) }

/-- Access token claims as signed by `generateAccessToken`
(`middleware/auth.js`) with the payload built in `routes/auth.js`. -/
structure AccessToken where
  userId : Nat
  sessionId : Nat
  username : String
  email : String
  iat : Nat
  exp : Nat
  nonce : Nat
deriving Repr, DecidableEq

/-- Refresh token claims as signed by `generateRefreshToken`
(`middleware/auth.js`) with the payload built in `routes/auth.js`; the
`type: "refresh"` discriminator is constant and omitted. -/
structure RefreshToken where
  userId : Nat
  sessionId : Nat
  tokenFamily : Nat
  iat : Nat
  exp : Nat
  nonce : Nat
deriving Repr, DecidableEq

/-- Model of `crypto.createHash("sha256").update(token).digest("hex")` on a
refresh token: identified with the token's issuance nonce. -/
def sha256 (t : RefreshToken) : Nat := t.nonce

/-- The persistent and counter state of the backend: the `users` and
`sessions` collections, plus freshness counters standing for token
generation and `crypto.randomUUID()`. -/
structure AuthState where
  users : List UserDoc
  sessions : List SessionDoc
  nextNonce : Nat
  nextUuid : Nat
deriving Repr, DecidableEq

/-- Mongo `findOne({ email })`. -/
def findUserByEmail (st : AuthState) (email : String) : Option UserDoc :=
  st.users.find? (fun u => u.email = email)

/-- Mongo `findById`. -/
def findUserById (st : AuthState) (id : Nat) : Option UserDoc :=
  st.users.find? (fun u => u.id = id)

/-- Write a user document back by id (`updateOne` / `save`). -/
def updateUserById (l : List UserDoc) (id : Nat) (f : UserDoc → UserDoc) : List UserDoc :=
  l.map (fun u => if u.id = id then f u else u)

/-- Write a session document back by its unique `sessionId` (`save`). -/
def replaceSession (l : List SessionDoc) (s : SessionDoc) : List SessionDoc :=
  l.map (fun x => if x.sessionId = s.sessionId then s else x)

/-- Static `Session.findActiveByUser` (Session model). -/
def findActiveByUser (st : AuthState) (userId : Nat) (now : Nat) : List SessionDoc :=
  st.sessions.filter (fun s => s.userId = userId && s.isActive && now < s.expiresAt)

/-- Static `Session.revokeAllForUser` (Session model): `updateMany` on all
active sessions of the user, clearing `isActive` and recording the reason
and instant. -/
def revokeAllForUser (st : AuthState) (userId : Nat) (reason : String) (now : Nat) : AuthState :=
  { st with sessions := st.sessions.map (fun s =>
      if s.userId = userId && s.isActive then
        { s with
          isActive := false
          metadata := metaSet (metaSet s.metadata "deactivationReason" reason)
            "deactivatedAt" (toString now) }
      else s) }

/-- Static `Session.detectTokenReuse` (Session model): look for any *other*
active session sharing the token family; when one exists, deactivate every
session of the family with `riskScore` 100 and breach markers, and report
reuse. -/
def detectTokenReuse (st : AuthState) (tokenFamily currentSessionId : Nat) (now : Nat) :
    Bool × AuthState :=
  let others := st.sessions.filter (fun s =>
    s.tokenFamily = tokenFamily && s.isActive && s.sessionId ≠ currentSessionId)
  if 0 < others.length then
    (true, { st with sessions := st.sessions.map (fun s =>
      if s.tokenFamily = tokenFamily then
        { s with
          isActive := false
          riskScore := 100
          metadata := metaSet (metaSet s.metadata "securityBreach" "token_reuse_detected")
            "breachDetectedAt" (toString now) }
      else s) })
  else (false, st)

/-- Helper `createUserSession` (`routes/auth.js`): mint a fresh session id
and token family, sign the access/refresh pair, store the sha256 of the
refresh token in a new Session document whose absolute expiry depends on
`rememberMe`, and add the session id to the user's active-session cache. -/
def createUserSession (st : AuthState) (user : UserDoc) (req : ReqInfo)
    (now : Nat) (rememberMe : Bool) :
    (AccessToken × RefreshToken × SessionDoc) × AuthState :=
  let deviceInfo := getDeviceInfo req
  let sessionId := st.nextUuid
  let tokenFamily := st.nextUuid + 1
  let accessToken : AccessToken :=
    { userId := user.id, sessionId := sessionId, username := user.username
      email := user.email, iat := now / 1000, exp := now + accessTokenLifetime
      nonce := st.nextNonce }
  let refreshToken : RefreshToken :=
    { userId := user.id, sessionId := sessionId, tokenFamily := tokenFamily
      iat := now / 1000, exp := now + refreshTokenLifetime
      nonce := st.nextNonce + 1 }
  let expiryTime := if rememberMe then rememberMeExpiry else defaultSessionExpiry
  let session0 : SessionDoc :=
    { userId := user.id, sessionId := sessionId
      refreshTokenHash := sha256 refreshToken, tokenFamily := tokenFamily
      deviceInfo := deviceInfo, isActive := true, expiresAt := now + expiryTime
      lastAccessedAt := now, loginMethod := "password", riskScore := 0
      metadata := [], createdAt := now }
  let session := { session0 with riskScore := session0.calculateRiskScore now }
  let st1 :=
    { st with
      sessions := st.sessions ++ [session]
      users := updateUserById st.users user.id (fun u => u.addSession sessionId now)
      nextNonce := st.nextNonce + 2
      nextUuid := st.nextUuid + 2 }
  ((accessToken, refreshToken, session), st1)

/-- Outcome of `POST /auth/register` (`routes/auth.js`), past input
validation. -/
inductive RegisterResult where
  | userExists (emailTaken : Bool)
  | ok (user : UserDoc) (accessToken : AccessToken) (refreshToken : RefreshToken)
      (session : SessionDoc)
deriving Repr, DecidableEq

/-- Handler of `POST /auth/register` (`routes/auth.js`): reject a duplicate
email or username with `USER_EXISTS`, otherwise create the user (bcrypt on
save, `passwordChangedAt` defaulting to creation time) and auto-login by
calling `createUserSession` without a `rememberMe` argument. -/
def register (st : AuthState) (username email password firstName lastName : String)
    (req : ReqInfo) (now : Nat) : RegisterResult × AuthState :=
  match st.users.find? (fun u => u.email = email || u.username = username) with
  | some existing => (.userExists (existing.email = email), st)
  | none =>
    let user : UserDoc :=
      { id := st.nextUuid, username := username, email := email
        password := bcryptHash password, firstName := firstName
        lastName := lastName, failedLoginAttempts := 0
        accountLockedUntil := none, lastLoginAt := none
        passwordChangedAt := some now, activeSessions := []
        maxConcurrentSessions := 5, isEmailVerified := false, isActive := true
        twoFactorEnabled := false, emailNotifications := true, createdAt := now }
    let st1 := { st with users := st.users ++ [user], nextUuid := st.nextUuid + 1 }
    let ((accessToken, refreshToken, session), st2) :=
      createUserSession st1 user req now false
    (.ok user accessToken refreshToken session, st2)

/-- Outcome of `POST /auth/login` (`routes/auth.js`), past input
validation. -/
inductive LoginResult where
  | invalidCredentials
  | accountLocked (lockedUntil : Option Nat)
  | accountDeactivated
  | ok (user : UserDoc) (accessToken : AccessToken) (refreshToken : RefreshToken)
      (session : SessionDoc)
deriving Repr, DecidableEq

/-- Handler of `POST /auth/login` (`routes/auth.js`): unknown email gives
`INVALID_CREDENTIALS`; a locked account gives `ACCOUNT_LOCKED` before the
password is even checked; a deactivated account gives
`ACCOUNT_DEACTIVATED`; a wrong password increments the failure counter and
gives `INVALID_CREDENTIALS`; success resets the counters when needed and
creates a session honouring `rememberMe`. -/
def login (st : AuthState) (email password : String) (rememberMe : Bool)
    (req : ReqInfo) (now : Nat) : LoginResult × AuthState :=
  match findUserByEmail st email with
  | none => (.invalidCredentials, st)
  | some user =>
    if user.isLocked now then (.accountLocked user.accountLockedUntil, st)
    else if !user.isActive then (.accountDeactivated, st)
    else if !(user.comparePassword password) then
      (.invalidCredentials,
        { st with users :=
            updateUserById st.users user.id (fun u => u.incLoginAttempts now) })
    else
      let user1 := if 0 < user.failedLoginAttempts then user.resetLoginAttempts else user
      let st1 :=
        if 0 < user.failedLoginAttempts then
          { st with users :=
              updateUserById st.users user.id (fun u => u.resetLoginAttempts) }
        else st
      let ((accessToken, refreshToken, session), st2) :=
        createUserSession st1 user1 req now rememberMe
      (.ok user1 accessToken refreshToken session, st2)

/-- Outcome of `POST /auth/refresh` (`routes/auth.js`). -/
inductive RefreshResult where
  | refreshTokenMissing
  | refreshTokenInvalid
  | sessionInvalid
  | tokenReuseDetected
  | refreshError
  | ok (accessToken : AccessToken) (refreshToken : RefreshToken)
deriving Repr, DecidableEq

/-- Lookup predicate of the refresh handler: an active, unexpired session
matching both the token's session id and the sha256 of the presented
token. -/
def refreshLookup (tok : RefreshToken) (now : Nat) (s : SessionDoc) : Bool :=
  s.sessionId = tok.sessionId && s.refreshTokenHash = sha256 tok &&
    s.isActive && now < s.expiresAt

/-- Handler of `POST /auth/refresh` (`routes/auth.js`): require the token,
verify it (expiry), locate the session by session id + token hash + active
+ unexpired else `SESSION_INVALID`, run `detectTokenReuse` on the token's
family else `TOKEN_REUSE_DETECTED`, then rotate: issue a new pair
preserving session id and token family, store the new hash and bump
`lastAccessedAt` (the pre-save hook recomputes the risk score). -/
def refresh (st : AuthState) (tok? : Option RefreshToken) (now : Nat) :
    RefreshResult × AuthState :=
  match tok? with
  | none => (.refreshTokenMissing, st)
  | some tok =>
    if tok.exp ≤ now then (.refreshTokenInvalid, st)
    else
      match st.sessions.find? (refreshLookup tok now) with
      | none => (.sessionInvalid, st)
      | some session =>
        let (reuse, st1) := detectTokenReuse st tok.tokenFamily tok.sessionId now
        if reuse then (.tokenReuseDetected, st1)
        else
          match findUserById st1 session.userId with
          | none => (.refreshError, st1)
          | some user =>
            let newAccessToken : AccessToken :=
              { userId := user.id, sessionId := session.sessionId
                username := user.username, email := user.email
                iat := now / 1000, exp := now + accessTokenLifetime
                nonce := st1.nextNonce }
            let newRefreshToken : RefreshToken :=
              { userId := user.id, sessionId := session.sessionId
                tokenFamily := tok.tokenFamily, iat := now / 1000
                exp := now + refreshTokenLifetime, nonce := st1.nextNonce + 1 }
            let session1 :=
              { session with
                refreshTokenHash := sha256 newRefreshToken
                lastAccessedAt := now }
            let session2 := { session1 with riskScore := session1.calculateRiskScore now }
            (.ok newAccessToken newRefreshToken,
              { st1 with
                sessions := replaceSession st1.sessions session2
                nextNonce := st1.nextNonce + 2 })

/-- Outcome of the `authenticate` middleware (`middleware/auth.js`).  The
`tokenInvalid` branch (malformed token / bad signature) is unreachable in
the structural token model and has no constructor uses. -/
inductive AuthResult where
  | tokenMissing
  | tokenExpired
  | tokenInvalid
  | sessionInvalid
  | userNotFound
  | accountDeactivated
  | accountLocked
  | passwordChanged
  | ok (user : UserDoc) (session : SessionDoc)
deriving Repr, DecidableEq

/-- Lookup predicate of `authenticate`: an active, unexpired session
matching the token's session id and user id. -/
def authLookup (tok : AccessToken) (now : Nat) (s : SessionDoc) : Bool :=
  s.sessionId = tok.sessionId && s.userId = tok.userId &&
    s.isActive && now < s.expiresAt

/-- Middleware `authenticate` (`middleware/auth.js`): require a bearer
token, verify it (expiry), load an active unexpired session by session id
and user id else `SESSION_INVALID`, load the user and require it active
and not locked, reject (deactivating the session) with `PASSWORD_CHANGED`
when `changedPasswordAfter(iat)` holds, otherwise attach the identity and
touch `lastAccessedAt` (recomputing the risk score on save). -/
def authenticate (st : AuthState) (tok? : Option AccessToken) (now : Nat) :
    AuthResult × AuthState :=
  match tok? with
  | none => (.tokenMissing, st)
  | some tok =>
    if tok.exp ≤ now then (.tokenExpired, st)
    else
      match st.sessions.find? (authLookup tok now) with
      | none => (.sessionInvalid, st)
      | some session =>
        match findUserById st tok.userId with
        | none => (.userNotFound, st)
        | some user =>
          if !user.isActive then (.accountDeactivated, st)
          else if user.isLocked now then (.accountLocked, st)
          else if user.changedPasswordAfter tok.iat then
            (.passwordChanged,
              { st with sessions :=
                  replaceSession st.sessions (session.deactivate "password_changed" now) })
          else
            let session1 := session.updateLastAccessed now
            (.ok user session1,
              { st with sessions := replaceSession st.sessions session1 })

/-- Outcome of a bearer-protected route: either a middleware rejection or
the handler's own result. -/
inductive LogoutResult where
  | authFailed (reason : AuthResult)
  | ok
deriving Repr, DecidableEq

/-- Handler of `POST /auth/logout` (`routes/auth.js`): deactivate the
current session with reason `user_logout` and drop its id from the user's
active-session cache. -/
def logout (st : AuthState) (tok? : Option AccessToken) (now : Nat) :
    LogoutResult × AuthState :=
  match authenticate st tok? now with
  | (.ok user session, st1) =>
    let st2 :=
      { st1 with sessions :=
          replaceSession st1.sessions (session.deactivate "user_logout" now) }
    let st3 :=
      { st2 with users :=
          updateUserById st2.users user.id (fun u => u.removeSession session.sessionId) }
    (.ok, st3)
  | (r, st1) => (.authFailed r, st1)

/-- Handler of `POST /auth/logout-all` (`routes/auth.js`): revoke every
active session of the user and clear the active-session cache. -/
def logoutAll (st : AuthState) (tok? : Option AccessToken) (now : Nat) :
    LogoutResult × AuthState :=
  match authenticate st tok? now with
  | (.ok user _, st1) =>
    let st2 := revokeAllForUser st1 user.id "user_logout_all" now
    let st3 :=
      { st2 with users :=
          updateUserById st2.users user.id (fun u => u.removeAllSessions) }
    (.ok, st3)
  | (r, st1) => (.authFailed r, st1)

/-- Outcome of `GET /auth/me` (`routes/auth.js`). -/
inductive MeResult where
  | authFailed (reason : AuthResult)
  | ok (user : UserDoc) (session : SessionDoc)
deriving Repr, DecidableEq

/-- Handler of `GET /auth/me` (`routes/auth.js`): return the attached user
and session context. -/
def getMe (st : AuthState) (tok? : Option AccessToken) (now : Nat) :
    MeResult × AuthState :=
  match authenticate st tok? now with
  | (.ok user session, st1) => (.ok user session, st1)
  | (r, st1) => (.authFailed r, st1)

/-- Outcome of `GET /auth/sessions` (`routes/auth.js`). -/
inductive SessionsResult where
  | authFailed (reason : AuthResult)
  | ok (current : SessionDoc) (sessions : List SessionDoc)
deriving Repr, DecidableEq

/-- Handler of `GET /auth/sessions` (`routes/auth.js`): list the user's
active sessions via `Session.findActiveByUser`. -/
def getSessions (st : AuthState) (tok? : Option AccessToken) (now : Nat) :
    SessionsResult × AuthState :=
  match authenticate st tok? now with
  | (.ok user session, st1) => (.ok session (findActiveByUser st1 user.id now), st1)
  | (r, st1) => (.authFailed r, st1)

/-- Outcome of `DELETE /auth/sessions/:sessionId` (`routes/auth.js`). -/
inductive RevokeResult where
  | authFailed (reason : AuthResult)
  | sessionNotFound
  | ok
deriving Repr, DecidableEq

/-- Handler of `DELETE /auth/sessions/:sessionId` (`routes/auth.js`): find
the caller's own active session by id else `SESSION_NOT_FOUND`, then
deactivate it with reason `user_revoked` and drop it from the cache. -/
def revokeSession (st : AuthState) (tok? : Option AccessToken) (sessionId : Nat)
    (now : Nat) : RevokeResult × AuthState :=
  match authenticate st tok? now with
  | (.ok user _, st1) =>
    match st1.sessions.find? (fun s =>
        s.sessionId = sessionId && s.userId = user.id && s.isActive) with
    | none => (.sessionNotFound, st1)
    | some target =>
      let st2 :=
        { st1 with sessions :=
            replaceSession st1.sessions (target.deactivate "user_revoked" now) }
      let st3 :=
        { st2 with users :=
            updateUserById st2.users user.id (fun u => u.removeSession sessionId) }
      (.ok, st3)
  | (r, st1) => (.authFailed r, st1)

/-- Save of a user document with a modified raw password
(`models/User.js` pre-save hook on a non-new document): rehash and set
`passwordChangedAt = Date.now() - 1000`, the 1-second skew margin. -/
def applyPasswordChange (u : UserDoc) (newPassword : String) (now : Nat) : UserDoc :=
  { u with
    password := bcryptHash newPassword
    passwordChangedAt := some (now - 1000) }

/-- Outcome of `PUT /auth/change-password` (`routes/auth.js`), past input
validation. -/
inductive ChangePasswordResult where
  | authFailed (reason : AuthResult)
  | invalidCurrentPassword
  | ok
deriving Repr, DecidableEq

/-- Handler of `PUT /auth/change-password` (`routes/auth.js`): verify the
current password else `INVALID_CURRENT_PASSWORD`; store the new bcrypt
hash (the pre-save hook sets `passwordChangedAt = now - 1000` on a
non-new document); then `updateMany` deactivates every *other* active
session of the user with reason `password_changed`. -/
def changePassword (st : AuthState) (tok? : Option AccessToken)
    (currentPassword newPassword : String) (now : Nat) :
    ChangePasswordResult × AuthState :=
  match authenticate st tok? now with
  | (.ok user session, st1) =>
    match findUserById st1 user.id with
    | none => (.authFailed .userNotFound, st1)
    | some u =>
      if !(u.comparePassword currentPassword) then (.invalidCurrentPassword, st1)
      else
        let u1 := applyPasswordChange u newPassword now
        let st2 := { st1 with users := updateUserById st1.users u.id (fun _ => u1) }
        let st3 :=
          { st2 with sessions := st2.sessions.map (fun s =>
              if s.userId = u.id && s.isActive && s.sessionId ≠ session.sessionId then
                { s with
                  isActive := false
                  metadata := metaSet s.metadata "deactivationReason" "password_changed" }
              else s) }
        (.ok, st3)
  | (r, st1) => (.authFailed r, st1)

/-- One API interaction of the authentication surface: the transition
relation generated by the route handlers. -/
inductive Step : AuthState → AuthState → Prop where
  | register (st : AuthState) (username email password firstName lastName : String)
      (req : ReqInfo) (now : Nat) :
      Step st (TaskAuth.register st username email password firstName lastName req now).2
  | login (st : AuthState) (email password : String) (rememberMe : Bool)
      (req : ReqInfo) (now : Nat) :
      Step st (TaskAuth.login st email password rememberMe req now).2
  | refresh (st : AuthState) (tok? : Option RefreshToken) (now : Nat) :
      Step st (TaskAuth.refresh st tok? now).2
  | logout (st : AuthState) (tok? : Option AccessToken) (now : Nat) :
      Step st (TaskAuth.logout st tok? now).2
  | logoutAll (st : AuthState) (tok? : Option AccessToken) (now : Nat) :
      Step st (TaskAuth.logoutAll st tok? now).2
  | getMe (st : AuthState) (tok? : Option AccessToken) (now : Nat) :
      Step st (TaskAuth.getMe st tok? now).2
  | getSessions (st : AuthState) (tok? : Option AccessToken) (now : Nat) :
      Step st (TaskAuth.getSessions st tok? now).2
  | revokeSession (st : AuthState) (tok? : Option AccessToken) (sessionId now : Nat) :
      Step st (TaskAuth.revokeSession st tok? sessionId now).2
  | changePassword (st : AuthState) (tok? : Option AccessToken)
      (currentPassword newPassword : String) (now : Nat) :
      Step st (TaskAuth.changePassword st tok? currentPassword newPassword now).2

/-- Zero or more API interactions. -/
def Reachable (st st' : AuthState) : Prop := Relation.ReflTransGen Step st st'

/-! Response bodies.  Each `res.json({...})` literal of the routes is
rendered into a structural JSON value, so that serialization-level
invariants (the password hash is never in a response) can be stated. -/

/-- Structural JSON values. -/
inductive Json where
  | null
  | bool (b : Bool)
  | num (n : Nat)
  | str (s : String)
  | arr (elems : List Json)
  | obj (fields : List (String × Json))
deriving Repr

mutual

/-- Whether the key `k` occurs anywhere in a JSON value. -/
def Json.hasKey (k : String) : Json → Bool
  | .null => false
  | .bool _ => false
  | .num _ => false
  | .str _ => false
  | .arr elems => jsonListHasKey k elems
  | .obj fields => jsonFieldsHasKey k fields

/-- Whether the key `k` occurs anywhere in a list of JSON values. -/
def jsonListHasKey (k : String) : List Json → Bool
  | [] => false
  | x :: xs => x.hasKey k || jsonListHasKey k xs

/-- Whether the key `k` occurs in a field list or nested below it. -/
def jsonFieldsHasKey (k : String) : List (String × Json) → Bool
  | [] => false
  | (key, v) :: fs => key == k || v.hasKey k || jsonFieldsHasKey k fs

end

/-- Delete of an object key (`delete ret.password`). -/
def eraseKey (k : String) (fields : List (String × Json)) : List (String × Json) :=
  fields.filter (fun p => p.1 ≠ k)

/-- JSON of an optional millisecond timestamp. -/
def optNum : Option Nat → Json
  | none => .null
  | some n => .num n

/-- Serialization of a full user document, virtuals included, before the
`toJSON` transform of `models/User.js` runs. -/
def userBaseJSON (u : UserDoc) (now : Nat) : List (String × Json) :=
  [("_id", .num u.id),
   ("username", .str u.username),
   ("email", .str u.email),
   ("password", .str u.password),
   ("firstName", .str u.firstName),
   ("lastName", .str u.lastName),
   ("failedLoginAttempts", .num u.failedLoginAttempts),
   ("accountLockedUntil", optNum u.accountLockedUntil),
   ("lastLoginAt", optNum u.lastLoginAt),
   ("passwordChangedAt", optNum u.passwordChangedAt),
   ("activeSessions", .arr (u.activeSessions.map Json.num)),
   ("maxConcurrentSessions", .num u.maxConcurrentSessions),
   ("isEmailVerified", .bool u.isEmailVerified),
   ("isActive", .bool u.isActive),
   ("twoFactorEnabled", .bool u.twoFactorEnabled),
   ("emailNotifications", .bool u.emailNotifications),
   ("createdAt", .num u.createdAt),
   ("__v", .num 0),
   ("isLocked", .bool (u.isLocked now)),
   ("fullName", .str u.fullName),
   ("id", .num u.id)]

/-- `toJSON` transform of `models/User.js`: delete `password` and `__v`. -/
def userToJSONFields (u : UserDoc) (now : Nat) : List (String × Json) :=
  eraseKey "__v" (eraseKey "password" (userBaseJSON u now))

/-- Serialized user document as sent by the routes (`user.toJSON()`
followed by the handlers' own `delete userResponse.password`). -/
def userResponseJSON (u : UserDoc) (now : Nat) : Json :=
  .obj (eraseKey "password" (userToJSONFields u now))

/-- Claims content of a signed access token (`generateAccessToken`). -/
def accessTokenJSON (t : AccessToken) : Json :=
  .obj [("userId", .num t.userId), ("sessionId", .num t.sessionId),
        ("username", .str t.username), ("email", .str t.email),
        ("iat", .num t.iat), ("exp", .num t.exp)]

/-- Claims content of a signed refresh token (`generateRefreshToken`). -/
def refreshTokenJSON (t : RefreshToken) : Json :=
  .obj [("userId", .num t.userId), ("sessionId", .num t.sessionId),
        ("tokenFamily", .num t.tokenFamily), ("type", .str "refresh"),
        ("iat", .num t.iat), ("exp", .num t.exp)]

/-- The `tokens` object shared by register/login/refresh responses. -/
def tokensJSON (a : AccessToken) (r : RefreshToken) : Json :=
  .obj [("accessToken", accessTokenJSON a), ("refreshToken", refreshTokenJSON r),
        ("expiresIn", .str "30m")]

/-- Serialized device descriptor. -/
def deviceInfoJSON (d : DeviceInfo) : Json :=
  .obj [("userAgent", .str d.userAgent), ("ip", .str d.ip),
        ("location", .str d.location),
        ("deviceFingerprint", match d.deviceFingerprint with
          | none => .null
          | some f => .str f)]

/-- Standard error body `{ success: false, error, code }`. -/
def errorJSON (error code : String) : Json :=
  .obj [("success", .bool false), ("error", .str error), ("code", .str code)]

/-- Body of a `POST /auth/register` response (`routes/auth.js`). -/
def registerResponse (res : RegisterResult) (now : Nat) : Json :=
  match res with
  | .userExists emailTaken =>
    errorJSON (if emailTaken then "Email is already registered"
               else "Username is already taken") "USER_EXISTS"
  | .ok u a r s =>
    .obj [("success", .bool true),
          ("message", .str "User registered successfully"),
          ("user", userResponseJSON u now),
          ("tokens", tokensJSON a r),
          ("session", .obj [("id", .num s.sessionId), ("expiresAt", .num s.expiresAt)])]

/-- Body of a `POST /auth/login` response (`routes/auth.js`). -/
def loginResponse (res : LoginResult) (now : Nat) : Json :=
  match res with
  | .invalidCredentials => errorJSON "Invalid email or password" "INVALID_CREDENTIALS"
  | .accountLocked lockedUntil =>
    .obj [("success", .bool false),
          ("error", .str "Account is temporarily locked due to multiple failed login attempts"),
          ("code", .str "ACCOUNT_LOCKED"),
          ("lockedUntil", optNum lockedUntil)]
  | .accountDeactivated => errorJSON "Account is deactivated" "ACCOUNT_DEACTIVATED"
  | .ok u a r s =>
    .obj [("success", .bool true),
          ("message", .str "Login successful"),
          ("user", userResponseJSON u now),
          ("tokens", tokensJSON a r),
          ("session", .obj [("id", .num s.sessionId), ("expiresAt", .num s.expiresAt)])]

/-- Body of a `POST /auth/refresh` response (`routes/auth.js`). -/
def refreshResponse (res : RefreshResult) : Json :=
  match res with
  | .refreshTokenMissing => errorJSON "Refresh token required" "REFRESH_TOKEN_MISSING"
  | .refreshTokenInvalid => errorJSON "Invalid or expired refresh token" "REFRESH_TOKEN_INVALID"
  | .sessionInvalid => errorJSON "Session not found or expired" "SESSION_INVALID"
  | .tokenReuseDetected =>
    errorJSON "Security breach detected. All sessions have been revoked." "TOKEN_REUSE_DETECTED"
  | .refreshError => errorJSON "Token refresh failed" "REFRESH_ERROR"
  | .ok a r =>
    .obj [("success", .bool true),
          ("message", .str "Tokens refreshed successfully"),
          ("tokens", tokensJSON a r)]

/-- Body of a rejection by the `authenticate` middleware
(`middleware/auth.js`). -/
def authFailedResponse (res : AuthResult) : Json :=
  match res with
  | .tokenMissing => errorJSON "Access token required" "TOKEN_MISSING"
  | .tokenExpired => errorJSON "Access token has expired" "TOKEN_EXPIRED"
  | .tokenInvalid => errorJSON "Invalid access token" "TOKEN_INVALID"
  | .sessionInvalid => errorJSON "Session not found or expired" "SESSION_INVALID"
  | .userNotFound => errorJSON "User not found" "USER_NOT_FOUND"
  | .accountDeactivated => errorJSON "Account is deactivated" "ACCOUNT_DEACTIVATED"
  | .accountLocked =>
    errorJSON "Account is locked due to multiple failed login attempts" "ACCOUNT_LOCKED"
  | .passwordChanged =>
    errorJSON "Password has been changed. Please log in again." "PASSWORD_CHANGED"
  | .ok _ _ => .null

/-- Body of a `POST /auth/logout` response (`routes/auth.js`). -/
def logoutResponse (res : LogoutResult) : Json :=
  match res with
  | .authFailed r => authFailedResponse r
  | .ok => .obj [("success", .bool true), ("message", .str "Logged out successfully")]

/-- Body of a `POST /auth/logout-all` response (`routes/auth.js`). -/
def logoutAllResponse (res : LogoutResult) : Json :=
  match res with
  | .authFailed r => authFailedResponse r
  | .ok => .obj [("success", .bool true),
                 ("message", .str "Logged out from all devices successfully")]

/-- Body of a `GET /auth/me` response (`routes/auth.js`). -/
def meResponse (res : MeResult) (now : Nat) : Json :=
  match res with
  | .authFailed r => authFailedResponse r
  | .ok u s =>
    .obj [("success", .bool true),
          ("user", userResponseJSON u now),
          ("session", .obj [("id", .num s.sessionId), ("expiresAt", .num s.expiresAt),
                            ("lastAccessedAt", .num s.lastAccessedAt),
                            ("deviceInfo", deviceInfoJSON s.deviceInfo)])]

/-- Body of a `GET /auth/sessions` response (`routes/auth.js`): the
redacted per-session projection of the handler. -/
def sessionsResponse (res : SessionsResult) : Json :=
  match res with
  | .authFailed r => authFailedResponse r
  | .ok current sessions =>
    .obj [("success", .bool true),
          ("sessions", .arr (sessions.map (fun s =>
            .obj [("id", .num s.sessionId),
                  ("deviceInfo", deviceInfoJSON s.deviceInfo),
                  ("lastAccessedAt", .num s.lastAccessedAt),
                  ("createdAt", .num s.createdAt),
                  ("expiresAt", .num s.expiresAt),
                  ("isCurrent", .bool (s.sessionId = current.sessionId))])))]

/-- Body of a `DELETE /auth/sessions/:sessionId` response
(`routes/auth.js`). -/
def revokeResponse (res : RevokeResult) : Json :=
  match res with
  | .authFailed r => authFailedResponse r
  | .sessionNotFound => errorJSON "Session not found" "SESSION_NOT_FOUND"
  | .ok => .obj [("success", .bool true), ("message", .str "Session revoked successfully")]

/-- Body of a `PUT /auth/change-password` response (`routes/auth.js`). -/
def changePasswordResponse (res : ChangePasswordResult) : Json :=
  match res with
  | .authFailed r => authFailedResponse r
  | .invalidCurrentPassword => errorJSON "Current password is incorrect" "INVALID_CURRENT_PASSWORD"
  | .ok =>
    .obj [("success", .bool true),
          ("message", .str "Password changed successfully. Other sessions have been logged out.")]

/-! Well-formedness of a state, and the freshness invariant backing
refresh-token rotation. -/

/-- Basic well-formedness of a backend state: stored refresh-token hashes
come from already-consumed nonces and are pairwise distinct (a fresh token
is minted for every stored hash). -/
def Wf (st : AuthState) : Prop :=
  (∀ s ∈ st.sessions, s.refreshTokenHash < st.nextNonce) ∧
  st.sessions.Pairwise (fun a b => a.refreshTokenHash ≠ b.refreshTokenHash)

/-- The hash value `n` has been rotated away: no stored session carries it,
and it can never be minted again. -/
def hashGone (n : Nat) (st : AuthState) : Prop :=
  n < st.nextNonce ∧ ∀ s ∈ st.sessions, s.refreshTokenHash ≠ n

/-! Concrete executable scenario: register alice at `t = 1000000` ms, then
refresh, log in a second device, and so on.  These states realize the
spec's own test scenarios and drive the counterexamples and witnesses. -/

/-- Concrete request metadata. -/
def demoReq : ReqInfo := { userAgent := "UA", ip := "1.2.3.4", country := none }

/-- Registration of alice on an empty backend at `t = 1000000`. -/
def demoReg : RegisterResult × AuthState :=
  register { users := [], sessions := [], nextNonce := 0, nextUuid := 0 }
    "alice" "a@x.com" "Passw0rd1" "" "" demoReq 1000000

/-- State after registering alice on an empty backend at `t = 1000000`. -/
def demoSt1 : AuthState := demoReg.2

/-- The access token issued by the demo registration. -/
def demoAccessA : AccessToken :=
  { userId := 0, sessionId := 1, username := "alice", email := "a@x.com"
    iat := 1000, exp := 2800000, nonce := 0 }

/-- The refresh token issued by the demo registration. -/
def demoRefreshA : RefreshToken :=
  { userId := 0, sessionId := 1, tokenFamily := 2, iat := 1000
    exp := 605800000, nonce := 1 }

/-- State after a successful refresh with `demoRefreshA` at `t = 2000000`:
the stored hash has been rotated. -/
def demoSt2 : AuthState := (refresh demoSt1 (some demoRefreshA) 2000000).2

/-- Second login of alice (a second device) at `t = 1100000`. -/
def demoLoginB : LoginResult × AuthState :=
  login demoSt1 "a@x.com" "Passw0rd1" false demoReq 1100000

/-- State after a second login of alice (a second device) at
`t = 1100000`. -/
def demoStB : AuthState := demoLoginB.2

/-- The access token issued by the second demo login. -/
def demoAccessB : AccessToken :=
  { userId := 0, sessionId := 3, username := "alice", email := "a@x.com"
    iat := 1100, exp := 2900000, nonce := 2 }

/-- State after alice changes her password from the first device at
`t = 1200000`. -/
def demoCpSt : AuthState :=
  (changePassword demoStB (some demoAccessA) "Passw0rd1" "NewPassw0rd1" 1200000).2

/-- State after logging out the first device at `t = 1010000`. -/
def demoLoSt : AuthState := (logout demoSt1 (some demoAccessA) 1010000).2

/-- The user document created by the demo registration. -/
def demoAlice : UserDoc :=
  { id := 0, username := "alice", email := "a@x.com"
    password := bcryptHash "Passw0rd1", firstName := "", lastName := ""
    failedLoginAttempts := 0, accountLockedUntil := none, lastLoginAt := none
    passwordChangedAt := some 1000000, activeSessions := []
    maxConcurrentSessions := 5, isEmailVerified := false, isActive := true
    twoFactorEnabled := false, emailNotifications := true, createdAt := 1000000 }

/-- The session document created by the demo registration. -/
def demoSessA : SessionDoc :=
  { userId := 0, sessionId := 1, refreshTokenHash := 1, tokenFamily := 2
    deviceInfo := { userAgent := "UA", ip := "1.2.3.4", location := "Unknown"
                    deviceFingerprint := some "b64$UA-1.2.3.4" }
    isActive := true, expiresAt := 605800000, lastAccessedAt := 1000000
    loginMethod := "password", riskScore := 0, metadata := []
    createdAt := 1000000 }

/-- Whether the demo registration issued exactly the demo token pair. -/
def demoRegIssuedTokens : Bool :=
  match demoReg.1 with
  | .ok _ a r _ => a = demoAccessA && r = demoRefreshA
  | _ => false

/-- Whether the second demo login issued `demoAccessB`. -/
def demoLoginBIssuedToken : Bool :=
  match demoLoginB.1 with
  | .ok _ a _ _ => a = demoAccessB
  | _ => false

/-- Alice's user document inside `demoSt1` (one cached session). -/
def demoAliceSt1 : UserDoc :=
  { demoAlice with activeSessions := [1], lastLoginAt := some 1000000 }

/-- Alice's user document inside `demoStB` (two cached sessions). -/
def demoAliceStB : UserDoc :=
  { demoAlice with activeSessions := [1, 3], lastLoginAt := some 1100000 }

/-- The first demo session as touched by `authenticate` at `t`. -/
def demoSessATouched (t : Nat) : SessionDoc :=
  { demoSessA with lastAccessedAt := t }

/-!  Theorems. -/

/-- C1: the spec states that replaying an already-rotated refresh token of
a valid family fails with `TOKEN_REUSE_DETECTED` and deactivates every
session of the family.  The code contradicts its own stated intent: in the
scenario register → refresh → replay the first refresh token, the replayed
token no longer matches the stored hash, so the handler answers
`SESSION_INVALID` before `detectTokenReuse` ever runs, and no session is
deactivated — the family-revocation path is unreachable because a token
family only ever contains the one session it was minted with. -/
theorem replayed_rotated_token_gets_session_invalid_not_reuse :
    demoRegIssuedTokens = true ∧
    (refresh demoSt1 (some demoRefreshA) 2000000).1 =
      .ok { userId := 0, sessionId := 1, username := "alice", email := "a@x.com"
            iat := 2000, exp := 3800000, nonce := 2 }
          { userId := 0, sessionId := 1, tokenFamily := 2, iat := 2000
            exp := 606800000, nonce := 3 } ∧
    (refresh demoSt2 (some demoRefreshA) 3000000).1 = .sessionInvalid ∧
    (∀ s ∈ (refresh demoSt2 (some demoRefreshA) 3000000).2.sessions,
      s.isActive = true) := by
  decide

/-- C7 counterexample: after a password change at `t = 5000000` ms the
stored `passwordChangedAt` is `4999000`, and a token issued in the very
same instant (`iat = 5000`) is NOT treated as stale — `changedPasswordAfter`
returns `false`, contradicting the claim that such a token is stale. -/
theorem same_instant_token_is_not_stale :
    (applyPasswordChange demoAlice "NewPassw0rd1" 5000000).passwordChangedAt =
      some 4999000 ∧
    (applyPasswordChange demoAlice "NewPassw0rd1" 5000000).changedPasswordAfter
      (5000000 / 1000) = false := by
  decide

/-- C7 amended: `changedPasswordAfter(iat)` is true exactly when the stored
`passwordChangedAt`, truncated to whole seconds, is after the issue time;
since a password change stores `now - 1000` (the 1-second skew margin), a
token issued in the same instant as the change is treated as fresh, not
stale. -/
theorem changedPasswordAfter_spec (u : UserDoc) (t iat : Nat)
    (h : u.passwordChangedAt = some t) :
    (u.changedPasswordAfter iat = true ↔ iat < t / 1000) ∧
    ∀ (v : UserDoc) (pw : String) (now : Nat),
      (applyPasswordChange v pw now).changedPasswordAfter (now / 1000) = false := by
  refine ⟨?_, ?_⟩
  · simp [UserDoc.changedPasswordAfter, h]
  · intro v pw now
    simp only [applyPasswordChange, UserDoc.changedPasswordAfter]
    simp only [decide_eq_false_iff_not, Nat.not_lt]
    exact Nat.div_le_div_right (Nat.sub_le _ _)

/-- Witness for `changedPasswordAfter_spec` at the demo user. -/
theorem changedPasswordAfter_spec_witness :
    (applyPasswordChange demoAlice "NewPassw0rd1" 5000000).passwordChangedAt =
      some 4999000 ∧
    ((applyPasswordChange demoAlice "NewPassw0rd1" 5000000).changedPasswordAfter 5000 =
      true ↔ 5000 < 4999000 / 1000) :=
  ⟨by decide,
    (changedPasswordAfter_spec (applyPasswordChange demoAlice "NewPassw0rd1" 5000000)
      4999000 5000 (by decide)).1⟩

/-- C5 counterexample: a successful refresh 25 hours after the session was
created (still within the 7-day session lifetime) also changes the stored
`riskScore` (0 to 10, the session now being older than a day), so a refresh
does not change only the stored refresh-token hash and `lastAccessedAt`. -/
theorem refresh_also_changes_risk_score :
    demoSt1.sessions.map (fun s => s.riskScore) = [0] ∧
    (refresh demoSt1 (some demoRefreshA) 91000000).1 =
      .ok { userId := 0, sessionId := 1, username := "alice", email := "a@x.com"
            iat := 91000, exp := 92800000, nonce := 2 }
          { userId := 0, sessionId := 1, tokenFamily := 2, iat := 91000
            exp := 695800000, nonce := 3 } ∧
    (refresh demoSt1 (some demoRefreshA) 91000000).2.sessions.map
      (fun s => s.riskScore) = [10] := by
  decide

/-- C9: every session created by registration expires exactly 7 days after
creation — `register` calls `createUserSession` without a `rememberMe`
argument — while a login-created session expires 30 days out exactly when
the login's `rememberMe` flag is set, and 7 days out otherwise. -/
theorem register_sessions_expire_in_7_days
    (st : AuthState) (username email password firstName lastName : String)
    (req : ReqInfo) (now : Nat) (u : UserDoc) (a : AccessToken)
    (r : RefreshToken) (sess : SessionDoc) (st2 : AuthState)
    (hok : register st username email password firstName lastName req now =
      (.ok u a r sess, st2)) :
    sess.expiresAt = now + defaultSessionExpiry ∧
    ∀ (st3 : AuthState) (email2 pw2 : String) (rm : Bool) (req2 : ReqInfo)
      (now2 : Nat) (u2 : UserDoc) (a2 : AccessToken) (r2 : RefreshToken)
      (sess2 : SessionDoc) (st4 : AuthState),
      login st3 email2 pw2 rm req2 now2 = (.ok u2 a2 r2 sess2, st4) →
      sess2.expiresAt = now2 + (if rm then rememberMeExpiry else defaultSessionExpiry) := by
  constructor
  · unfold register at hok
    cases hfind : st.users.find? (fun v => v.email = email || v.username = username) with
    | some w =>
      rw [hfind] at hok
      simp at hok
    | none =>
      rw [hfind] at hok
      simp [createUserSession] at hok
      rcases hok with ⟨⟨hu, ha, hr, hsess⟩, hst⟩
      rw [← hsess]
  · intro st3 email2 pw2 rm req2 now2 u2 a2 r2 sess2 st4 hlog
    unfold login at hlog
    cases hfind : findUserByEmail st3 email2 with
    | none =>
      rw [hfind] at hlog
      simp at hlog
    | some w =>
      rw [hfind] at hlog
      by_cases hlock : w.isLocked now2
      · simp [hlock] at hlog
      · by_cases hact : w.isActive
        · by_cases hpw : w.comparePassword pw2
          · simp [hlock, hact, hpw, createUserSession] at hlog
            rcases hlog with ⟨⟨hu, ha, hr, hsess⟩, hst⟩
            rw [← hsess]
          · simp [hlock, hact, hpw] at hlog
        · simp [hlock, hact] at hlog

/-- Witness for `register_sessions_expire_in_7_days` at the demo
registration. -/
theorem login_on_locked_account (st : AuthState) (email password : String)
    (rm : Bool) (req : ReqInfo) (t : Nat) (u : UserDoc)
    (hfind : findUserByEmail st email = some u) (hlock : u.isLocked t = true) :
    (login st email password rm req t).1 = .accountLocked u.accountLockedUntil := by
  unfold login
  rw [hfind]
  simp [hlock]

theorem iterate_wrong_attempts_below_max (u : UserDoc) (now : Nat)
    (h0 : u.failedLoginAttempts = 0) (hl : u.accountLockedUntil = none) :
    ∀ k, k ≤ 4 →
      ((fun v => UserDoc.incLoginAttempts v now)^[k] u).failedLoginAttempts = k ∧
      ((fun v => UserDoc.incLoginAttempts v now)^[k] u).accountLockedUntil = none := by
  intro k
  induction k with
  | zero =>
    intro _
    simpa using ⟨h0, hl⟩
  | succ n ih =>
    intro hle
    obtain ⟨hf, hlk⟩ := ih (by omega)
    rw [Function.iterate_succ_apply']
    set w := (fun v => UserDoc.incLoginAttempts v now)^[n] u with hw
    have hcond : ¬ (maxLoginAttempts ≤ n + 1 ∧ w.isLocked now = false) := by
      rintro ⟨hmax, -⟩
      simp [maxLoginAttempts] at hmax
      omega
    constructor
    · simp [UserDoc.incLoginAttempts, hlk, hcond, hf]
    · simp [UserDoc.incLoginAttempts, hlk, hcond, hf]

/-- C3: starting from a clean account, four consecutive wrong-password
attempts leave the account unlocked; the fifth (`maxAttempts = 5`) locks it
until `now + accountLockTime`; any login before that time — whatever the
submitted password — answers `ACCOUNT_LOCKED`; and one more wrong attempt
after the lock has expired restarts the counter at 1 with the lock
cleared. -/
theorem account_lockout_policy (u : UserDoc) (now : Nat)
    (h0 : u.failedLoginAttempts = 0) (hl : u.accountLockedUntil = none) :
    (∀ k, k ≤ 4 →
      ((fun v => UserDoc.incLoginAttempts v now)^[k] u).accountLockedUntil = none ∧
      ((fun v => UserDoc.incLoginAttempts v now)^[k] u).failedLoginAttempts = k) ∧
    ((fun v => UserDoc.incLoginAttempts v now)^[maxLoginAttempts] u).accountLockedUntil =
      some (now + accountLockTime) ∧
    ((fun v => UserDoc.incLoginAttempts v now)^[maxLoginAttempts] u).failedLoginAttempts =
      maxLoginAttempts ∧
    (∀ (st : AuthState) (email password : String) (rm : Bool) (req : ReqInfo) (t2 : Nat),
      findUserByEmail st email =
        some ((fun v => UserDoc.incLoginAttempts v now)^[maxLoginAttempts] u) →
      t2 < now + accountLockTime →
      (login st email password rm req t2).1 = .accountLocked (some (now + accountLockTime))) ∧
    (∀ t3, now + accountLockTime < t3 →
      (((fun v => UserDoc.incLoginAttempts v now)^[maxLoginAttempts] u).incLoginAttempts
        t3).failedLoginAttempts = 1 ∧
      (((fun v => UserDoc.incLoginAttempts v now)^[maxLoginAttempts] u).incLoginAttempts
        t3).accountLockedUntil = none) ∧
    (∀ (st : AuthState) (email pw : String) (rm : Bool) (req : ReqInfo) (t : Nat)
      (v : UserDoc),
      findUserByEmail st email = some v → v.isLocked t = false → v.isActive = true →
      v.comparePassword pw = false →
      (login st email pw rm req t).1 = .invalidCredentials ∧
      (login st email pw rm req t).2.users =
        updateUserById st.users v.id (fun w => w.incLoginAttempts t)) := by
  obtain ⟨hf4, hlk4⟩ := iterate_wrong_attempts_below_max u now h0 hl 4 (by omega)
  have h5 : maxLoginAttempts = 4 + 1 := by simp [maxLoginAttempts]
  have hiter5 :
      ((fun v => UserDoc.incLoginAttempts v now)^[maxLoginAttempts] u).accountLockedUntil =
        some (now + accountLockTime) ∧
      ((fun v => UserDoc.incLoginAttempts v now)^[maxLoginAttempts] u).failedLoginAttempts =
        maxLoginAttempts := by
    rw [h5, Function.iterate_succ_apply']
    set w := (fun v => UserDoc.incLoginAttempts v now)^[4] u with hw
    have hcond : maxLoginAttempts ≤ 4 + 1 ∧ w.isLocked now = false :=
      ⟨by simp [maxLoginAttempts], by simp [UserDoc.isLocked, hlk4]⟩
    constructor
    · simp [UserDoc.incLoginAttempts, hlk4, hcond, hf4]
    · simp [UserDoc.incLoginAttempts, hlk4, hcond, hf4, maxLoginAttempts]
  refine ⟨?_, hiter5.1, hiter5.2, ?_, ?_, ?_⟩
  · intro k hk
    obtain ⟨ha, hb⟩ := iterate_wrong_attempts_below_max u now h0 hl k hk
    exact ⟨hb, ha⟩
  · intro st email password rm req t2 hfind ht2
    have hlock : ((fun v => UserDoc.incLoginAttempts v now)^[maxLoginAttempts] u).isLocked
        t2 = true := by
      simp only [UserDoc.isLocked, hiter5.1]
      simp [ht2]
    rw [login_on_locked_account st email password rm req t2 _ hfind hlock, hiter5.1]
  · intro t3 ht3
    set w := (fun v => UserDoc.incLoginAttempts v now)^[maxLoginAttempts] u with hw
    constructor
    · simp [UserDoc.incLoginAttempts, hiter5.1, ht3]
    · simp [UserDoc.incLoginAttempts, hiter5.1, ht3]
  · intro st email pw rm req t v hfind hnl hactv hwrong
    unfold login
    rw [hfind]
    simp only []
    rw [if_neg (by simp [hnl]), if_neg (by simp [hactv]), if_pos (by simp [hwrong])]
    exact ⟨rfl, rfl⟩

/-- Witness for `account_lockout_policy` at the demo user and concrete
times. -/
theorem account_lockout_policy_witness :
    demoAlice.failedLoginAttempts = 0 ∧ demoAlice.accountLockedUntil = none ∧
    ((fun v => UserDoc.incLoginAttempts v 2000000)^[maxLoginAttempts]
      demoAlice).accountLockedUntil = some (2000000 + accountLockTime) :=
  ⟨by decide, by decide,
    (account_lockout_policy demoAlice 2000000 (by decide) (by decide)).2.1⟩

theorem register_sessions_expire_in_7_days_witness :
    demoReg = (.ok demoAlice demoAccessA demoRefreshA demoSessA, demoSt1) ∧
    demoSessA.expiresAt = 1000000 + defaultSessionExpiry :=
  ⟨by decide,
    (register_sessions_expire_in_7_days
      { users := [], sessions := [], nextNonce := 0, nextUuid := 0 }
      "alice" "a@x.com" "Passw0rd1" "" "" demoReq 1000000
      demoAlice demoAccessA demoRefreshA demoSessA demoSt1
      (by decide)).1⟩

/-- C4 counterexample: alice has two sessions (registration and a second
login); she changes her password from the first.  The second session's
unexpired access token is then rejected with `SESSION_INVALID` — not
`PASSWORD_CHANGED` as claimed — because `authenticate` checks the session's
`isActive` flag before it ever reaches the `changedPasswordAfter` check. -/
theorem other_session_token_rejected_with_session_invalid :
    demoLoginBIssuedToken = true ∧
    (changePassword demoStB (some demoAccessA) "Passw0rd1" "NewPassw0rd1" 1200000).1 =
      .ok ∧
    (authenticate demoCpSt (some demoAccessB) 1300000).1 = .sessionInvalid ∧
    (authenticate demoCpSt (some demoAccessB) 1300000).1 ≠ .passwordChanged := by
  decide

/-- C4 amended: a successful password change deactivates every session of
the user other than the one performing the change, and a previously-issued
unexpired access token of a different session is afterwards rejected with
`SESSION_INVALID` (its session is no longer active); the `PASSWORD_CHANGED`
rejection is reserved for tokens whose session is still active. -/
theorem change_password_revokes_other_sessions
    (st : AuthState) (tok : AccessToken) (cur new : String) (now : Nat)
    (user : UserDoc) (sess : SessionDoc) (stA st2 : AuthState)
    (hauth : authenticate st (some tok) now = (.ok user sess, stA))
    (hok : changePassword st (some tok) cur new now = (.ok, st2)) :
    (∀ s ∈ st2.sessions, s.userId = user.id → s.sessionId ≠ sess.sessionId →
      s.isActive = false) ∧
    ∀ (tokB : AccessToken) (t2 : Nat), tokB.userId = user.id →
      tokB.sessionId ≠ sess.sessionId → t2 < tokB.exp →
      (authenticate st2 (some tokB) t2).1 = .sessionInvalid := by
  unfold changePassword at hok
  rw [hauth] at hok
  simp only [] at hok
  cases hfindu : findUserById stA user.id with
  | none =>
    rw [hfindu] at hok
    simp at hok
  | some u =>
    rw [hfindu] at hok
    have huid : u.id = user.id := by
      have := List.find?_some hfindu
      simpa using this
    by_cases hpw : u.comparePassword cur
    · simp only [hpw, Bool.not_true, Bool.false_eq_true, if_false, ite_false,
        Bool.not_eq_true'] at hok
      have hst2 := congrArg Prod.snd hok
      simp only [] at hst2
      have hsessions : st2.sessions = stA.sessions.map (fun s =>
          if s.userId = u.id && s.isActive && s.sessionId ≠ sess.sessionId then
            { s with
              isActive := false
              metadata := metaSet s.metadata "deactivationReason" "password_changed" }
          else s) := by
        rw [← hst2]
      have hpart1 : ∀ s ∈ st2.sessions, s.userId = user.id →
          s.sessionId ≠ sess.sessionId → s.isActive = false := by
        intro s hs hu hsid
        rw [hsessions] at hs
        obtain ⟨y, hy, hfy⟩ := List.mem_map.mp hs
        by_cases hc : (y.userId = u.id && y.isActive && y.sessionId ≠ sess.sessionId) = true
        · rw [if_pos hc] at hfy
          rw [← hfy]
        · rw [if_neg hc] at hfy
          subst hfy
          by_contra hactive
          have hact : y.isActive = true := by
            cases hy2 : y.isActive
            · exact absurd hy2 hactive
            · rfl
          exact hc (by simp [hu, huid, hact, hsid])
      refine ⟨hpart1, ?_⟩
      intro tokB t2 hbu hbs hexp
      have hnone : st2.sessions.find? (authLookup tokB t2) = none := by
        rw [List.find?_eq_none]
        intro s hs hlk
        simp only [authLookup, Bool.and_eq_true, decide_eq_true_eq] at hlk
        obtain ⟨⟨⟨hsid, hsu⟩, hact⟩, -⟩ := hlk
        have : s.isActive = false :=
          hpart1 s hs (by rw [hsu, hbu]) (by rw [hsid]; exact hbs)
        rw [this] at hact
        exact Bool.false_ne_true hact
      simp only [authenticate]
      rw [if_neg (by omega), hnone]
    · simp [hpw] at hok

/-- Witness for `change_password_revokes_other_sessions` at the demo
two-session scenario. -/
theorem change_password_revokes_other_sessions_witness :
    authenticate demoStB (some demoAccessA) 1200000 =
      (.ok demoAliceStB (demoSessATouched 1200000),
        (authenticate demoStB (some demoAccessA) 1200000).2) ∧
    changePassword demoStB (some demoAccessA) "Passw0rd1" "NewPassw0rd1" 1200000 =
      (.ok, demoCpSt) ∧
    ∀ s ∈ demoCpSt.sessions, s.userId = demoAliceStB.id →
      s.sessionId ≠ (demoSessATouched 1200000).sessionId → s.isActive = false :=
  ⟨by decide, by decide,
    (change_password_revokes_other_sessions demoStB demoAccessA "Passw0rd1"
      "NewPassw0rd1" 1200000 demoAliceStB (demoSessATouched 1200000)
      (authenticate demoStB (some demoAccessA) 1200000).2 demoCpSt
      (by decide) (by decide)).1⟩

theorem authenticate_ok_facts (st : AuthState) (tok : AccessToken) (now : Nat)
    (user : UserDoc) (sess : SessionDoc) (stA : AuthState)
    (hauth : authenticate st (some tok) now = (.ok user sess, stA)) :
    sess.sessionId = tok.sessionId ∧ sess.userId = tok.userId ∧
    sess.isActive = true ∧ stA.sessions = replaceSession st.sessions sess := by
  unfold authenticate at hauth
  split at hauth
  · exact absurd (congrArg Prod.fst hauth) (by simp)
  next tok2 heq =>
  injection heq with heq2
  subst heq2
  split at hauth
  · exact absurd (congrArg Prod.fst hauth) (by simp)
  cases hfind : st.sessions.find? (authLookup tok now) with
  | none =>
    rw [hfind] at hauth
    exact absurd (congrArg Prod.fst hauth) (by simp)
  | some found =>
    rw [hfind] at hauth
    have hlk := List.find?_some hfind
    simp only [authLookup, Bool.and_eq_true, decide_eq_true_eq] at hlk
    obtain ⟨⟨⟨hsid, huid⟩, hact⟩, -⟩ := hlk
    cases hfu : findUserById st tok.userId with
    | none =>
      rw [hfu] at hauth
      exact absurd (congrArg Prod.fst hauth) (by simp)
    | some u =>
      rw [hfu] at hauth
      simp only [] at hauth
      by_cases ha : (!u.isActive) = true
      · rw [if_pos ha] at hauth
        exact absurd (congrArg Prod.fst hauth) (by simp)
      rw [if_neg ha] at hauth
      by_cases hb : u.isLocked now = true
      · rw [if_pos hb] at hauth
        exact absurd (congrArg Prod.fst hauth) (by simp)
      rw [if_neg hb] at hauth
      by_cases hc : u.changedPasswordAfter tok.iat = true
      · rw [if_pos hc] at hauth
        exact absurd (congrArg Prod.fst hauth) (by simp)
      rw [if_neg hc] at hauth
      have h1 := congrArg Prod.fst hauth
      have h2 := congrArg Prod.snd hauth
      simp only [AuthResult.ok.injEq] at h1
      obtain ⟨hu, hsess⟩ := h1
      refine ⟨?_, ?_, ?_, ?_⟩
      · rw [← hsess]
        simpa [SessionDoc.updateLastAccessed] using hsid
      · rw [← hsess]
        simpa [SessionDoc.updateLastAccessed] using huid
      · rw [← hsess]
        simpa [SessionDoc.updateLastAccessed] using hact
      · simp only [] at h2
        rw [← h2, hsess]

/-- C8 counterexample: logging out the demo session succeeds, but a second
HTTP logout with the same (unexpired) access token is rejected by the
authentication gate with 401 `SESSION_INVALID` — it does error, contrary to
the claim — although the session does remain inactive. -/
theorem second_logout_is_rejected_by_auth_gate :
    (logout demoSt1 (some demoAccessA) 1010000).1 = .ok ∧
    (logout demoLoSt (some demoAccessA) 1020000).1 = .authFailed .sessionInvalid ∧
    (logout demoLoSt (some demoAccessA) 1020000).1 ≠ .ok := by
  decide

/-- C8 amended: the session-level `deactivate` operation is idempotent and
total — deactivating an already-deactivated session does not error and
leaves it inactive — and a second HTTP logout with the same access token
never reactivates the session: it is rejected at the authentication gate
with `SESSION_INVALID`, the session remaining inactive. -/
theorem logout_never_reactivates_session
    (st : AuthState) (tok : AccessToken) (now : Nat) (user : UserDoc)
    (sess : SessionDoc) (stA st1 : AuthState)
    (hauth : authenticate st (some tok) now = (.ok user sess, stA))
    (hok : logout st (some tok) now = (.ok, st1))
    (t2 : Nat) (hexp : t2 < tok.exp) :
    (∀ (x : SessionDoc) (r1 r2 : String) (u1 u2 : Nat),
      ((x.deactivate r1 u1).deactivate r2 u2).isActive = false ∧
      (x.deactivate r1 u1).isActive = false) ∧
    (logout st1 (some tok) t2).1 = .authFailed .sessionInvalid ∧
    ∀ s ∈ (logout st1 (some tok) t2).2.sessions, s.sessionId = sess.sessionId →
      s.isActive = false := by
  obtain ⟨hsid, huid, hact, hstA⟩ := authenticate_ok_facts st tok now user sess stA hauth
  unfold logout at hok
  rw [hauth] at hok
  simp only [] at hok
  have hst1 := congrArg Prod.snd hok
  simp only [] at hst1
  have hsessions1 : st1.sessions =
      replaceSession stA.sessions (sess.deactivate "user_logout" now) := by
    rw [← hst1]
  have hinactive : ∀ s ∈ st1.sessions, s.sessionId = sess.sessionId →
      s.isActive = false := by
    intro s hs hsid2
    rw [hsessions1] at hs
    obtain ⟨y, hy, hfy⟩ := List.mem_map.mp hs
    by_cases hc : y.sessionId = (sess.deactivate "user_logout" now).sessionId
    · rw [if_pos hc] at hfy
      rw [← hfy]
      rfl
    · rw [if_neg hc] at hfy
      subst hfy
      exact absurd (by simpa [SessionDoc.deactivate] using hsid2) hc
  have hnone : st1.sessions.find? (authLookup tok t2) = none := by
    rw [List.find?_eq_none]
    intro s hs hlk
    simp only [authLookup, Bool.and_eq_true, decide_eq_true_eq] at hlk
    obtain ⟨⟨⟨hs1, -⟩, hs3⟩, -⟩ := hlk
    have := hinactive s hs (by rw [hs1, hsid])
    rw [this] at hs3
    exact Bool.false_ne_true hs3
  have hauth2 : (authenticate st1 (some tok) t2) = (.sessionInvalid, st1) := by
    simp only [authenticate]
    rw [if_neg (by omega), hnone]
  refine ⟨?_, ?_, ?_⟩
  · intro x r1 r2 u1 u2
    exact ⟨rfl, rfl⟩
  · unfold logout
    rw [hauth2]
  · unfold logout
    rw [hauth2]
    simpa using hinactive

/-- Witness for `logout_never_reactivates_session` at the demo session. -/
theorem logout_never_reactivates_session_witness :
    authenticate demoSt1 (some demoAccessA) 1010000 =
      (.ok demoAliceSt1 (demoSessATouched 1010000),
        (authenticate demoSt1 (some demoAccessA) 1010000).2) ∧
    logout demoSt1 (some demoAccessA) 1010000 = (.ok, demoLoSt) ∧
    (logout demoLoSt (some demoAccessA) 1020000).1 = .authFailed .sessionInvalid :=
  ⟨by decide, by decide,
    (logout_never_reactivates_session demoSt1 demoAccessA 1010000 demoAliceSt1
      (demoSessATouched 1010000) (authenticate demoSt1 (some demoAccessA) 1010000).2
      demoLoSt (by decide) (by decide) 1020000 (by decide)).2.1⟩

theorem refresh_ok_char (st : AuthState) (tok : RefreshToken) (now : Nat)
    (a : AccessToken) (r : RefreshToken) (st2 : AuthState) (s : SessionDoc)
    (hfind : st.sessions.find? (refreshLookup tok now) = some s)
    (hok : refresh st (some tok) now = (.ok a r, st2)) :
    r.tokenFamily = tok.tokenFamily ∧ r.sessionId = s.sessionId ∧
    a.sessionId = s.sessionId ∧ r.nonce = st.nextNonce + 1 ∧
    st2.users = st.users ∧ st2.nextNonce = st.nextNonce + 2 ∧
    st2.sessions = replaceSession st.sessions
      { s with
        refreshTokenHash := st.nextNonce + 1
        lastAccessedAt := now
        riskScore := SessionDoc.calculateRiskScore
          { s with refreshTokenHash := st.nextNonce + 1, lastAccessedAt := now } now } := by
  simp only [refresh] at hok
  by_cases hexp : tok.exp ≤ now
  · rw [if_pos hexp] at hok
    exact absurd (congrArg Prod.fst hok) (by simp)
  rw [if_neg hexp, hfind] at hok
  simp only [] at hok
  by_cases hreuse : 0 < (st.sessions.filter (fun x =>
      x.tokenFamily = tok.tokenFamily && x.isActive &&
        x.sessionId ≠ tok.sessionId)).length
  · rw [detectTokenReuse, if_pos hreuse] at hok
    exact absurd (congrArg Prod.fst hok) (by simp)
  rw [detectTokenReuse, if_neg hreuse] at hok
  simp only [] at hok
  cases hfu : findUserById st s.userId with
  | none =>
    rw [hfu] at hok
    rw [if_neg Bool.false_ne_true] at hok
    exact absurd (congrArg Prod.fst hok) (by simp)
  | some u =>
    rw [hfu] at hok
    simp only [] at hok
    rw [if_neg Bool.false_ne_true] at hok
    have h1 := congrArg Prod.fst hok
    have h2 := congrArg Prod.snd hok
    simp only [] at h1 h2
    injection h1 with ha hr
    subst ha
    subst hr
    subst h2
    exact ⟨rfl, rfl, rfl, rfl, rfl, rfl, rfl⟩

/-- C5 amended: a successful refresh issues the new refresh token with the
same token family and session id as the presented one, and the stored
session keeps its `tokenFamily`, `sessionId`, `userId`, `deviceInfo`,
`expiresAt`, `isActive`, `createdAt`, `loginMethod` and `metadata`; what
changes is the stored refresh-token hash, `lastAccessedAt`, and the
recomputed `riskScore`. -/
theorem refresh_preserves_family_and_session_id
    (st : AuthState) (tok : RefreshToken) (now : Nat)
    (a : AccessToken) (r : RefreshToken) (st2 : AuthState) (s : SessionDoc)
    (hfind : st.sessions.find? (refreshLookup tok now) = some s)
    (hok : refresh st (some tok) now = (.ok a r, st2)) :
    r.tokenFamily = tok.tokenFamily ∧ r.sessionId = tok.sessionId ∧
    a.sessionId = tok.sessionId ∧
    ∀ x ∈ st2.sessions, x.sessionId = s.sessionId →
      x.tokenFamily = s.tokenFamily ∧ x.userId = s.userId ∧
      x.expiresAt = s.expiresAt ∧ x.deviceInfo = s.deviceInfo ∧
      x.isActive = s.isActive ∧ x.createdAt = s.createdAt ∧
      x.loginMethod = s.loginMethod ∧ x.metadata = s.metadata ∧
      x.refreshTokenHash = sha256 r ∧ x.lastAccessedAt = now := by
  obtain ⟨hfam, hrs, has, hnonce, -, -, hsess⟩ :=
    refresh_ok_char st tok now a r st2 s hfind hok
  have hsid : s.sessionId = tok.sessionId := by
    have := List.find?_some hfind
    simp only [refreshLookup, Bool.and_eq_true, decide_eq_true_eq] at this
    exact this.1.1.1
  refine ⟨hfam, by rw [hrs, hsid], by rw [has, hsid], ?_⟩
  intro x hx hxid
  rw [hsess] at hx
  obtain ⟨y, hy, hfy⟩ := List.mem_map.mp hx
  by_cases hc : y.sessionId =
      (SessionDoc.mk s.userId s.sessionId (st.nextNonce + 1) s.tokenFamily
        s.deviceInfo s.isActive s.expiresAt now s.loginMethod
        (SessionDoc.calculateRiskScore
          { s with refreshTokenHash := st.nextNonce + 1, lastAccessedAt := now } now)
        s.metadata s.createdAt).sessionId
  · rw [if_pos hc] at hfy
    subst hfy
    refine ⟨rfl, rfl, rfl, rfl, rfl, rfl, rfl, rfl, ?_, rfl⟩
    simp [sha256, hnonce]
  · rw [if_neg hc] at hfy
    subst hfy
    exact absurd hxid hc

/-- Witness for `refresh_preserves_family_and_session_id` at the demo
refresh. -/
theorem refresh_preserves_family_and_session_id_witness :
    demoSt1.sessions.find? (refreshLookup demoRefreshA 2000000) = some demoSessA ∧
    refresh demoSt1 (some demoRefreshA) 2000000 =
      (.ok { userId := 0, sessionId := 1, username := "alice", email := "a@x.com"
             iat := 2000, exp := 3800000, nonce := 2 }
           { userId := 0, sessionId := 1, tokenFamily := 2, iat := 2000
             exp := 606800000, nonce := 3 }, demoSt2) ∧
    ({ userId := 0, sessionId := 1, tokenFamily := 2, iat := 2000
       exp := 606800000, nonce := 3 } : RefreshToken).tokenFamily =
      demoRefreshA.tokenFamily :=
  ⟨by decide, by decide,
    (refresh_preserves_family_and_session_id demoSt1 demoRefreshA 2000000
      { userId := 0, sessionId := 1, username := "alice", email := "a@x.com"
        iat := 2000, exp := 3800000, nonce := 2 }
      { userId := 0, sessionId := 1, tokenFamily := 2, iat := 2000
        exp := 606800000, nonce := 3 }
      demoSt2 demoSessA (by decide) (by decide)).1⟩

/-- C10: a successful refresh leaves every other session untouched, leaves
the user documents untouched, and on the affected session changes nothing
but the stored refresh-token hash, `lastAccessedAt` and the recomputed
`riskScore` — in particular `expiresAt` keeps the absolute expiry fixed at
session creation, so no number of refreshes extends a session's
lifetime. -/
theorem refresh_never_changes_expiry
    (st : AuthState) (tok : RefreshToken) (now : Nat)
    (a : AccessToken) (r : RefreshToken) (st2 : AuthState) (s : SessionDoc)
    (hfind : st.sessions.find? (refreshLookup tok now) = some s)
    (hok : refresh st (some tok) now = (.ok a r, st2)) :
    st2.users = st.users ∧
    (∀ x ∈ st2.sessions, x.sessionId ≠ s.sessionId → x ∈ st.sessions) ∧
    ∀ x ∈ st2.sessions, x.sessionId = s.sessionId →
      x.expiresAt = s.expiresAt ∧ x.isActive = s.isActive ∧
      x.tokenFamily = s.tokenFamily ∧ x.userId = s.userId ∧
      x.deviceInfo = s.deviceInfo ∧ x.createdAt = s.createdAt ∧
      x.loginMethod = s.loginMethod ∧ x.metadata = s.metadata := by
  obtain ⟨-, -, -, -, husers, -, hsess⟩ :=
    refresh_ok_char st tok now a r st2 s hfind hok
  refine ⟨husers, ?_, ?_⟩
  · intro x hx hxid
    rw [hsess] at hx
    obtain ⟨y, hy, hfy⟩ := List.mem_map.mp hx
    by_cases hc : y.sessionId =
        (SessionDoc.mk s.userId s.sessionId (st.nextNonce + 1) s.tokenFamily
          s.deviceInfo s.isActive s.expiresAt now s.loginMethod
          (SessionDoc.calculateRiskScore
            { s with refreshTokenHash := st.nextNonce + 1, lastAccessedAt := now } now)
          s.metadata s.createdAt).sessionId
    · rw [if_pos hc] at hfy
      subst hfy
      exact absurd rfl hxid
    · rw [if_neg hc] at hfy
      subst hfy
      exact hy
  · intro x hx hxid
    rw [hsess] at hx
    obtain ⟨y, hy, hfy⟩ := List.mem_map.mp hx
    by_cases hc : y.sessionId =
        (SessionDoc.mk s.userId s.sessionId (st.nextNonce + 1) s.tokenFamily
          s.deviceInfo s.isActive s.expiresAt now s.loginMethod
          (SessionDoc.calculateRiskScore
            { s with refreshTokenHash := st.nextNonce + 1, lastAccessedAt := now } now)
          s.metadata s.createdAt).sessionId
    · rw [if_pos hc] at hfy
      subst hfy
      exact ⟨rfl, rfl, rfl, rfl, rfl, rfl, rfl, rfl⟩
    · rw [if_neg hc] at hfy
      subst hfy
      exact absurd hxid hc

/-- Witness for `refresh_never_changes_expiry` at the demo refresh. -/
theorem refresh_never_changes_expiry_witness :
    demoSt1.sessions.find? (refreshLookup demoRefreshA 2000000) = some demoSessA ∧
    demoSt2.users = demoSt1.users ∧
    ∀ x ∈ demoSt2.sessions, x.sessionId = demoSessA.sessionId →
      x.expiresAt = demoSessA.expiresAt :=
  ⟨by decide,
    (refresh_never_changes_expiry demoSt1 demoRefreshA 2000000
      { userId := 0, sessionId := 1, username := "alice", email := "a@x.com"
        iat := 2000, exp := 3800000, nonce := 2 }
      { userId := 0, sessionId := 1, tokenFamily := 2, iat := 2000
        exp := 606800000, nonce := 3 }
      demoSt2 demoSessA (by decide) (by decide)).1,
    fun x hx hxid =>
      ((refresh_never_changes_expiry demoSt1 demoRefreshA 2000000
        { userId := 0, sessionId := 1, username := "alice", email := "a@x.com"
          iat := 2000, exp := 3800000, nonce := 2 }
        { userId := 0, sessionId := 1, tokenFamily := 2, iat := 2000
          exp := 606800000, nonce := 3 }
        demoSt2 demoSessA (by decide) (by decide)).2.2 x hx hxid).1⟩

theorem forall_hash_ne_map_preserving {n : Nat} {l : List SessionDoc}
    {f : SessionDoc → SessionDoc}
    (hf : ∀ y, (f y).refreshTokenHash = y.refreshTokenHash)
    (hall : ∀ x ∈ l, x.refreshTokenHash ≠ n) :
    ∀ x ∈ l.map f, x.refreshTokenHash ≠ n := by
  intro x hx
  obtain ⟨y, hy, hfy⟩ := List.mem_map.mp hx
  rw [← hfy, hf y]
  exact hall y hy

theorem forall_hash_ne_replaceSession {n : Nat} {l : List SessionDoc} {s : SessionDoc}
    (hall : ∀ x ∈ l, x.refreshTokenHash ≠ n) (hs : s.refreshTokenHash ≠ n) :
    ∀ x ∈ replaceSession l s, x.refreshTokenHash ≠ n := by
  intro x hx
  obtain ⟨y, hy, hfy⟩ := List.mem_map.mp hx
  by_cases hc : y.sessionId = s.sessionId
  · rw [if_pos hc] at hfy
    rw [← hfy]
    exact hs
  · rw [if_neg hc] at hfy
    rw [← hfy]
    exact hall y hy

theorem hashGone_createUserSession (st : AuthState) (u : UserDoc) (req : ReqInfo)
    (now : Nat) (rm : Bool) (n : Nat) (hg : hashGone n st) :
    hashGone n (createUserSession st u req now rm).2 := by
  obtain ⟨hlt, hall⟩ := hg
  have hn : (createUserSession st u req now rm).2.nextNonce = st.nextNonce + 2 := rfl
  have hsessions : (createUserSession st u req now rm).2.sessions =
      st.sessions ++ [(createUserSession st u req now rm).1.2.2] := rfl
  have hhash : (createUserSession st u req now rm).1.2.2.refreshTokenHash =
      st.nextNonce + 1 := rfl
  constructor
  · rw [hn]
    omega
  · intro s hs
    rw [hsessions] at hs
    rcases List.mem_append.mp hs with h | h
    · exact hall s h
    · rw [List.mem_singleton] at h
      subst h
      rw [hhash]
      omega

theorem hashGone_register (st : AuthState)
    (username email password firstName lastName : String) (req : ReqInfo)
    (now n : Nat) (hg : hashGone n st) :
    hashGone n (register st username email password firstName lastName req now).2 := by
  simp only [register]
  cases hfind : st.users.find? (fun u => u.email = email || u.username = username) with
  | some w => exact hg
  | none => exact hashGone_createUserSession _ _ _ _ _ _ hg

theorem hashGone_login (st : AuthState) (email password : String) (rm : Bool)
    (req : ReqInfo) (now n : Nat) (hg : hashGone n st) :
    hashGone n (login st email password rm req now).2 := by
  simp only [login]
  cases hfind : findUserByEmail st email with
  | none => exact hg
  | some u =>
    simp only []
    by_cases hlock : u.isLocked now = true
    · rw [if_pos hlock]
      exact hg
    rw [if_neg hlock]
    by_cases hact : (!u.isActive) = true
    · rw [if_pos hact]
      exact hg
    rw [if_neg hact]
    by_cases hpw : (!u.comparePassword password) = true
    · rw [if_pos hpw]
      exact hg
    rw [if_neg hpw]
    by_cases hfa : 0 < u.failedLoginAttempts
    · rw [if_pos hfa, if_pos hfa]
      exact hashGone_createUserSession _ _ _ _ _ _ hg
    · rw [if_neg hfa, if_neg hfa]
      exact hashGone_createUserSession _ _ _ _ _ _ hg

theorem hashGone_detectTokenReuse (st : AuthState) (fam sid now n : Nat)
    (hg : hashGone n st) : hashGone n (detectTokenReuse st fam sid now).2 := by
  obtain ⟨hlt, hall⟩ := hg
  simp only [detectTokenReuse]
  by_cases hr : 0 < (st.sessions.filter (fun s =>
      s.tokenFamily = fam && s.isActive && s.sessionId ≠ sid)).length
  · rw [if_pos hr]
    refine ⟨hlt, ?_⟩
    refine forall_hash_ne_map_preserving ?_ hall
    intro y
    by_cases hc : y.tokenFamily = fam
    · rw [if_pos hc]
    · rw [if_neg hc]
  · rw [if_neg hr]
    exact ⟨hlt, hall⟩

theorem hashGone_refresh (st : AuthState) (tok? : Option RefreshToken) (now n : Nat)
    (hg : hashGone n st) : hashGone n (refresh st tok? now).2 := by
  cases tok? with
  | none => exact hg
  | some tok =>
    simp only [refresh]
    by_cases hexp : tok.exp ≤ now
    · rw [if_pos hexp]
      exact hg
    rw [if_neg hexp]
    cases hfind : st.sessions.find? (refreshLookup tok now) with
    | none => exact hg
    | some s =>
      simp only []
      by_cases hreuse : 0 < (st.sessions.filter (fun x =>
          x.tokenFamily = tok.tokenFamily && x.isActive &&
            x.sessionId ≠ tok.sessionId)).length
      · rw [detectTokenReuse, if_pos hreuse, if_pos rfl]
        obtain ⟨hlt, hall⟩ := hg
        refine ⟨hlt, ?_⟩
        refine forall_hash_ne_map_preserving ?_ hall
        intro y
        by_cases hc : y.tokenFamily = tok.tokenFamily
        · rw [if_pos hc]
        · rw [if_neg hc]
      · rw [detectTokenReuse, if_neg hreuse, if_neg Bool.false_ne_true]
        cases hfu : findUserById st s.userId with
        | none => exact hg
        | some u =>
          simp only []
          obtain ⟨hlt, hall⟩ := hg
          constructor
          · show n < st.nextNonce + 2
            omega
          · intro x hx
            refine forall_hash_ne_replaceSession hall ?_ x hx
            show st.nextNonce + 1 ≠ n
            omega

theorem hashGone_authenticate (st : AuthState) (tok? : Option AccessToken)
    (now n : Nat) (hg : hashGone n st) :
    hashGone n (authenticate st tok? now).2 := by
  cases tok? with
  | none => exact hg
  | some tok =>
    simp only [authenticate]
    by_cases hexp : tok.exp ≤ now
    · rw [if_pos hexp]
      exact hg
    rw [if_neg hexp]
    cases hfind : st.sessions.find? (authLookup tok now) with
    | none => exact hg
    | some s =>
      have hsmem := List.mem_of_find?_eq_some hfind
      have hshash : s.refreshTokenHash ≠ n := hg.2 s hsmem
      cases hfu : findUserById st tok.userId with
      | none => exact hg
      | some u =>
        simp only []
        by_cases hact : (!u.isActive) = true
        · rw [if_pos hact]
          exact hg
        rw [if_neg hact]
        by_cases hlock : u.isLocked now = true
        · rw [if_pos hlock]
          exact hg
        rw [if_neg hlock]
        by_cases hchg : u.changedPasswordAfter tok.iat = true
        · rw [if_pos hchg]
          exact ⟨hg.1, forall_hash_ne_replaceSession hg.2 hshash⟩
        · rw [if_neg hchg]
          exact ⟨hg.1, forall_hash_ne_replaceSession hg.2 hshash⟩

theorem authenticate_ok_hash_from_store (st : AuthState) (tok? : Option AccessToken)
    (now : Nat) (user : UserDoc) (sess : SessionDoc) (stA : AuthState)
    (hauth : authenticate st tok? now = (.ok user sess, stA)) :
    ∃ y ∈ st.sessions, y.refreshTokenHash = sess.refreshTokenHash := by
  cases tok? with
  | none => exact absurd (congrArg Prod.fst hauth) (by simp [authenticate])
  | some tok =>
    simp only [authenticate] at hauth
    by_cases hexp : tok.exp ≤ now
    · rw [if_pos hexp] at hauth
      exact absurd (congrArg Prod.fst hauth) (by simp)
    rw [if_neg hexp] at hauth
    cases hfind : st.sessions.find? (authLookup tok now) with
    | none =>
      rw [hfind] at hauth
      exact absurd (congrArg Prod.fst hauth) (by simp)
    | some found =>
      rw [hfind] at hauth
      have hfmem := List.mem_of_find?_eq_some hfind
      cases hfu : findUserById st tok.userId with
      | none =>
        rw [hfu] at hauth
        exact absurd (congrArg Prod.fst hauth) (by simp)
      | some u =>
        rw [hfu] at hauth
        simp only [] at hauth
        by_cases hact : (!u.isActive) = true
        · rw [if_pos hact] at hauth
          exact absurd (congrArg Prod.fst hauth) (by simp)
        rw [if_neg hact] at hauth
        by_cases hlock : u.isLocked now = true
        · rw [if_pos hlock] at hauth
          exact absurd (congrArg Prod.fst hauth) (by simp)
        rw [if_neg hlock] at hauth
        by_cases hchg : u.changedPasswordAfter tok.iat = true
        · rw [if_pos hchg] at hauth
          exact absurd (congrArg Prod.fst hauth) (by simp)
        rw [if_neg hchg] at hauth
        have h1 := congrArg Prod.fst hauth
        simp only [] at h1
        injection h1 with hu hsess
        exact ⟨found, hfmem, by rw [← hsess]; rfl⟩

theorem hashGone_logout (st : AuthState) (tok? : Option AccessToken) (now n : Nat)
    (hg : hashGone n st) : hashGone n (logout st tok? now).2 := by
  rcases hA : authenticate st tok? now with ⟨r, st1⟩
  have hg1 : hashGone n st1 := by
    have := hashGone_authenticate st tok? now n hg
    rwa [hA] at this
  simp only [logout, hA]
  cases r
  case ok user sess =>
    obtain ⟨y, hy, hyh⟩ := authenticate_ok_hash_from_store st tok? now user sess st1 hA
    refine ⟨hg1.1, ?_⟩
    refine forall_hash_ne_replaceSession hg1.2 ?_
    show sess.refreshTokenHash ≠ n
    rw [← hyh]
    exact hg.2 y hy
  all_goals exact hg1

theorem hashGone_logoutAll (st : AuthState) (tok? : Option AccessToken) (now n : Nat)
    (hg : hashGone n st) : hashGone n (logoutAll st tok? now).2 := by
  rcases hA : authenticate st tok? now with ⟨r, st1⟩
  have hg1 : hashGone n st1 := by
    have := hashGone_authenticate st tok? now n hg
    rwa [hA] at this
  simp only [logoutAll, hA]
  cases r
  case ok user sess =>
    refine ⟨hg1.1, ?_⟩
    simp only [revokeAllForUser]
    refine forall_hash_ne_map_preserving ?_ hg1.2
    intro y
    by_cases hc : (y.userId = user.id && y.isActive) = true
    · rw [if_pos hc]
    · rw [if_neg hc]
  all_goals exact hg1

theorem hashGone_getMe (st : AuthState) (tok? : Option AccessToken) (now n : Nat)
    (hg : hashGone n st) : hashGone n (getMe st tok? now).2 := by
  rcases hA : authenticate st tok? now with ⟨r, st1⟩
  have hg1 : hashGone n st1 := by
    have := hashGone_authenticate st tok? now n hg
    rwa [hA] at this
  simp only [getMe, hA]
  cases r
  all_goals exact hg1

theorem hashGone_getSessions (st : AuthState) (tok? : Option AccessToken) (now n : Nat)
    (hg : hashGone n st) : hashGone n (getSessions st tok? now).2 := by
  rcases hA : authenticate st tok? now with ⟨r, st1⟩
  have hg1 : hashGone n st1 := by
    have := hashGone_authenticate st tok? now n hg
    rwa [hA] at this
  simp only [getSessions, hA]
  cases r
  all_goals exact hg1

theorem hashGone_revokeSession (st : AuthState) (tok? : Option AccessToken)
    (sessionId now n : Nat) (hg : hashGone n st) :
    hashGone n (revokeSession st tok? sessionId now).2 := by
  rcases hA : authenticate st tok? now with ⟨r, st1⟩
  have hg1 : hashGone n st1 := by
    have := hashGone_authenticate st tok? now n hg
    rwa [hA] at this
  simp only [revokeSession, hA]
  cases r
  case ok user sess =>
    simp only []
    cases hfind : st1.sessions.find? (fun s =>
        s.sessionId = sessionId && s.userId = user.id && s.isActive) with
    | none => exact hg1
    | some target =>
      have htmem := List.mem_of_find?_eq_some hfind
      refine ⟨hg1.1, ?_⟩
      refine forall_hash_ne_replaceSession hg1.2 ?_
      show target.refreshTokenHash ≠ n
      exact hg1.2 target htmem
  all_goals exact hg1

theorem hashGone_changePassword (st : AuthState) (tok? : Option AccessToken)
    (cur new : String) (now n : Nat) (hg : hashGone n st) :
    hashGone n (changePassword st tok? cur new now).2 := by
  rcases hA : authenticate st tok? now with ⟨r, st1⟩
  have hg1 : hashGone n st1 := by
    have := hashGone_authenticate st tok? now n hg
    rwa [hA] at this
  simp only [changePassword, hA]
  cases r
  case ok user sess =>
    simp only []
    cases hfu : findUserById st1 user.id with
    | none => exact hg1
    | some u =>
      simp only []
      by_cases hpw : (!u.comparePassword cur) = true
      · rw [if_pos hpw]
        exact hg1
      rw [if_neg hpw]
      refine ⟨hg1.1, ?_⟩
      refine forall_hash_ne_map_preserving ?_ hg1.2
      intro y
      by_cases hc : (y.userId = u.id && y.isActive && y.sessionId ≠ sess.sessionId) = true
      · rw [if_pos hc]
      · rw [if_neg hc]
  all_goals exact hg1

theorem hashGone_step {st st' : AuthState} (h : Step st st') (n : Nat)
    (hg : hashGone n st) : hashGone n st' := by
  cases h with
  | register username email password firstName lastName req now =>
    exact hashGone_register st username email password firstName lastName req now n hg
  | login email password rememberMe req now =>
    exact hashGone_login st email password rememberMe req now n hg
  | refresh tok? now =>
    exact hashGone_refresh st tok? now n hg
  | logout tok? now =>
    exact hashGone_logout st tok? now n hg
  | logoutAll tok? now =>
    exact hashGone_logoutAll st tok? now n hg
  | getMe tok? now =>
    exact hashGone_getMe st tok? now n hg
  | getSessions tok? now =>
    exact hashGone_getSessions st tok? now n hg
  | revokeSession tok? sessionId now =>
    exact hashGone_revokeSession st tok? sessionId now n hg
  | changePassword tok? currentPassword newPassword now =>
    exact hashGone_changePassword st tok? currentPassword newPassword now n hg

theorem hashGone_reachable {st st' : AuthState} (h : Reachable st st') {n : Nat}
    (hg : hashGone n st) : hashGone n st' := by
  have h2 : Relation.ReflTransGen Step st st' := h
  clear h
  induction h2 with
  | refl => exact hg
  | tail hsteps hstep ih => exact hashGone_step hstep n ih

theorem hashGone_after_refresh (st : AuthState) (tok : RefreshToken) (now : Nat)
    (a : AccessToken) (r : RefreshToken) (st2 : AuthState)
    (hwf : Wf st) (hok : refresh st (some tok) now = (.ok a r, st2)) :
    hashGone (sha256 tok) st2 := by
  cases hfind : st.sessions.find? (refreshLookup tok now) with
  | none =>
    simp only [refresh] at hok
    by_cases hexp : tok.exp ≤ now
    · rw [if_pos hexp] at hok
      exact absurd (congrArg Prod.fst hok) (by simp)
    · rw [if_neg hexp, hfind] at hok
      exact absurd (congrArg Prod.fst hok) (by simp)
  | some s =>
    obtain ⟨-, -, -, -, -, hnonce, hsess⟩ :=
      refresh_ok_char st tok now a r st2 s hfind hok
    have hsmem := List.mem_of_find?_eq_some hfind
    have hlook := List.find?_some hfind
    simp only [refreshLookup, Bool.and_eq_true, decide_eq_true_eq] at hlook
    have hshash : s.refreshTokenHash = sha256 tok := hlook.1.1.2
    have hslt : sha256 tok < st.nextNonce := by
      rw [← hshash]
      exact hwf.1 s hsmem
    constructor
    · rw [hnonce]
      omega
    · intro x hx
      rw [hsess] at hx
      obtain ⟨y, hy, hfy⟩ := List.mem_map.mp hx
      by_cases hc : y.sessionId =
          (SessionDoc.mk s.userId s.sessionId (st.nextNonce + 1) s.tokenFamily
            s.deviceInfo s.isActive s.expiresAt now s.loginMethod
            (SessionDoc.calculateRiskScore
              { s with refreshTokenHash := st.nextNonce + 1, lastAccessedAt := now } now)
            s.metadata s.createdAt).sessionId
      · rw [if_pos hc] at hfy
        rw [← hfy]
        show st.nextNonce + 1 ≠ sha256 tok
        omega
      · rw [if_neg hc] at hfy
        rw [← hfy]
        have hyne : y ≠ s := by
          intro hcontra
          exact hc (by rw [hcontra])
        have hsymm : Symmetric
            (fun (a b : SessionDoc) => a.refreshTokenHash ≠ b.refreshTokenHash) := by
          intro a b h e
          exact h e.symm
        have := (List.Pairwise.forall hsymm hwf.2) hy hsmem hyne
        rw [← hshash]
        exact this

/-- C2: after a successful refresh, the rotated-away refresh token fails
every subsequent (still-unexpired) refresh attempt, in any state reachable
through further API interactions, with `SESSION_INVALID`: its sha256 no
longer matches any stored `refreshTokenHash`, because rotation stored a
fresh hash and fresh hashes are never reused. -/
theorem previous_refresh_token_always_session_invalid
    (st : AuthState) (tok : RefreshToken) (now : Nat)
    (a : AccessToken) (r : RefreshToken) (st2 : AuthState)
    (hwf : Wf st) (hok : refresh st (some tok) now = (.ok a r, st2))
    (st3 : AuthState) (hreach : Reachable st2 st3)
    (now2 : Nat) (hexp : now2 < tok.exp) :
    (refresh st3 (some tok) now2).1 = .sessionInvalid := by
  have hg : hashGone (sha256 tok) st3 :=
    hashGone_reachable hreach (hashGone_after_refresh st tok now a r st2 hwf hok)
  have hnone : st3.sessions.find? (refreshLookup tok now2) = none := by
    rw [List.find?_eq_none]
    intro x hx hlk
    simp only [refreshLookup, Bool.and_eq_true, decide_eq_true_eq] at hlk
    exact hg.2 x hx hlk.1.1.2
  simp only [refresh]
  rw [if_neg (by omega), hnone]

/-- Witness for `previous_refresh_token_always_session_invalid` at the demo
refresh, with the replay attempted immediately after the rotation. -/
theorem previous_refresh_token_always_session_invalid_witness :
    Wf demoSt1 ∧
    refresh demoSt1 (some demoRefreshA) 2000000 =
      (.ok { userId := 0, sessionId := 1, username := "alice", email := "a@x.com"
             iat := 2000, exp := 3800000, nonce := 2 }
           { userId := 0, sessionId := 1, tokenFamily := 2, iat := 2000
             exp := 606800000, nonce := 3 }, demoSt2) ∧
    (refresh demoSt2 (some demoRefreshA) 3000000).1 = .sessionInvalid :=
  ⟨⟨by decide, by decide⟩, by decide,
    previous_refresh_token_always_session_invalid demoSt1 demoRefreshA 2000000
      { userId := 0, sessionId := 1, username := "alice", email := "a@x.com"
        iat := 2000, exp := 3800000, nonce := 2 }
      { userId := 0, sessionId := 1, tokenFamily := 2, iat := 2000
        exp := 606800000, nonce := 3 }
      demoSt2 ⟨by decide, by decide⟩ (by decide) demoSt2 Relation.ReflTransGen.refl
      3000000 (by decide)⟩

theorem jsonListHasKey_num_map (k : String) (ns : List Nat) :
    jsonListHasKey k (ns.map Json.num) = false := by
  induction ns with
  | nil => rfl
  | cons x xs ih => simp [jsonListHasKey, Json.hasKey, ih]

theorem optNum_hasKey (k : String) (o : Option Nat) : (optNum o).hasKey k = false := by
  cases o <;> rfl

theorem userResponseJSON_no_password (u : UserDoc) (now : Nat) :
    (userResponseJSON u now).hasKey "password" = false := by
  simp [userResponseJSON, userToJSONFields, userBaseJSON, eraseKey, Json.hasKey,
    jsonFieldsHasKey, jsonListHasKey_num_map, optNum_hasKey]

theorem errorJSON_no_password (e c : String) :
    (errorJSON e c).hasKey "password" = false := by
  rfl

theorem tokensJSON_no_password (a : AccessToken) (r : RefreshToken) :
    (tokensJSON a r).hasKey "password" = false := by
  rfl

theorem deviceInfoJSON_no_password (d : DeviceInfo) :
    (deviceInfoJSON d).hasKey "password" = false := by
  cases hd : d.deviceFingerprint <;>
    simp [deviceInfoJSON, hd, Json.hasKey, jsonFieldsHasKey]

theorem authFailedResponse_no_password (res : AuthResult) :
    (authFailedResponse res).hasKey "password" = false := by
  cases res <;> rfl

theorem sessionsListJSON_no_password (current : SessionDoc) (l : List SessionDoc) :
    jsonListHasKey "password" (l.map (fun s =>
      Json.obj [("id", .num s.sessionId),
                ("deviceInfo", deviceInfoJSON s.deviceInfo),
                ("lastAccessedAt", .num s.lastAccessedAt),
                ("createdAt", .num s.createdAt),
                ("expiresAt", .num s.expiresAt),
                ("isCurrent", .bool (s.sessionId = current.sessionId))])) = false := by
  induction l with
  | nil => rfl
  | cons x xs ih =>
    simp [jsonListHasKey, Json.hasKey, jsonFieldsHasKey, ih]
    exact deviceInfoJSON_no_password x.deviceInfo

/-- C6: the password hash is never returned in any response body of any
endpoint: every JSON body the authentication surface can produce — across
register, login, refresh, logout, logout-all, me, sessions, session
revocation and change-password, success and failure branches alike — has no
`password` key anywhere, for every user, token, session and state. -/
theorem password_hash_never_in_any_response :
    (∀ (res : RegisterResult) (now : Nat),
      (registerResponse res now).hasKey "password" = false) ∧
    (∀ (res : LoginResult) (now : Nat),
      (loginResponse res now).hasKey "password" = false) ∧
    (∀ (res : RefreshResult), (refreshResponse res).hasKey "password" = false) ∧
    (∀ (res : LogoutResult), (logoutResponse res).hasKey "password" = false) ∧
    (∀ (res : LogoutResult), (logoutAllResponse res).hasKey "password" = false) ∧
    (∀ (res : MeResult) (now : Nat),
      (meResponse res now).hasKey "password" = false) ∧
    (∀ (res : SessionsResult), (sessionsResponse res).hasKey "password" = false) ∧
    (∀ (res : RevokeResult), (revokeResponse res).hasKey "password" = false) ∧
    (∀ (res : ChangePasswordResult),
      (changePasswordResponse res).hasKey "password" = false) := by
  refine ⟨?_, ?_, ?_, ?_, ?_, ?_, ?_, ?_, ?_⟩
  · intro res now
    cases res with
    | userExists emailTaken => cases emailTaken <;> rfl
    | ok u a r s =>
      simp [registerResponse, Json.hasKey, jsonFieldsHasKey]
      exact ⟨userResponseJSON_no_password u now, tokensJSON_no_password a r⟩
  · intro res now
    cases res with
    | invalidCredentials => rfl
    | accountLocked lockedUntil =>
      simp [loginResponse, Json.hasKey, jsonFieldsHasKey]
      exact optNum_hasKey _ _
    | accountDeactivated => rfl
    | ok u a r s =>
      simp [loginResponse, Json.hasKey, jsonFieldsHasKey]
      exact ⟨userResponseJSON_no_password u now, tokensJSON_no_password a r⟩
  · intro res
    cases res <;> rfl
  · intro res
    cases res with
    | authFailed r => exact authFailedResponse_no_password r
    | ok => rfl
  · intro res
    cases res with
    | authFailed r => exact authFailedResponse_no_password r
    | ok => rfl
  · intro res now
    cases res with
    | authFailed r => exact authFailedResponse_no_password r
    | ok u s =>
      simp [meResponse, Json.hasKey, jsonFieldsHasKey]
      exact ⟨userResponseJSON_no_password u now,
        deviceInfoJSON_no_password s.deviceInfo⟩
  · intro res
    cases res with
    | authFailed r => exact authFailedResponse_no_password r
    | ok current sessions =>
      simp [sessionsResponse, Json.hasKey, jsonFieldsHasKey]
      exact sessionsListJSON_no_password current sessions
  · intro res
    cases res with
    | authFailed r => exact authFailedResponse_no_password r
    | sessionNotFound => rfl
    | ok => rfl
  · intro res
    cases res with
    | authFailed r => exact authFailedResponse_no_password r
    | invalidCurrentPassword => rfl
    | ok => rfl

end TaskAuth
